import Mathlib

/-!
# NetworkManager VPN service supervisor (src/vpn-manager/nm-vpn-service.c)

A shallow embedding of the `NMVPNService` object: its private data, the GLib
main-loop sources it registers, and every callback of the source file written
as a function on an explicit machine state.  Every call the C code makes on a
collaborator (a VPN connection, GLib, the logger) is appended to a trace, in
source order.

Conventions.
* A VPN connection object is identified by a number (its address).  The three
  commands `nm_vpn_connection_activate / _fail / _disconnect` are recorded in
  the trace; the connection's own "state-changed" signal is delivered to
  `connection_state_changed` as a separate event.
* Results of collaborators are arguments: the owner query of the D-Bus manager
  (`has_owner`), the outcome of `g_spawn_async` (`spawned`), the object
  returned by `nm_vpn_connection_new` (`vpn_connection`).
* GLib source ids are allotted by a counter and are never 0.
-/

namespace NMVPN

/-! ## Data model -/

/-- Identity of an `NMVPNConnection` object. -/
abbrev Conn := Nat

/-- Modelled from the spec: the enumeration `NMVPNConnectionState` is declared in
a header that is not part of the sources.  The spec names the states `activated`,
`failed` and `disconnected` and calls every other state opaque; `other n` stands
for the remaining enumerators. -/
inductive NMVPNConnectionState where
  | activated
  | failed
  | disconnected
  | other (n : Nat)
  deriving DecidableEq, Repr

/-- The three `GSourceFunc` callbacks this file hands to the main loop. -/
inductive GSourceFunc where
  | nm_vpn_service_daemon_exec
  | nm_vpn_service_timeout
  | destroy_service
  deriving DecidableEq, Repr

/-- Messages passed to `nm_warning`, with the number that is formatted into them. -/
inductive Warning where
  | exited_with_error (n : Nat)
  | stopped_unexpectedly (n : Nat)
  | died_with_signal (n : Nat)
  | died_unknown_cause
  | could_not_launch
  deriving DecidableEq, Repr

/-- Messages passed to `nm_info`. -/
inductive Info where
  | did_not_start_in_time
  | executed (pid : Nat)
  | exec_scheduled
  | just_appeared
  | disappeared
  deriving DecidableEq, Repr

/-- One call made by the service on a collaborator. -/
inductive Call where
  | nm_vpn_connection_activate (c : Conn)
  | nm_vpn_connection_fail (c : Conn)
  | nm_vpn_connection_disconnect (c : Conn)
  | g_signal_connect_state_changed (c : Conn)
  | g_object_unref_connection (c : Conn)
  | g_object_unref_service
  | g_idle_add (f : GSourceFunc) (id : Nat)
  | g_timeout_add (ms : Nat) (f : GSourceFunc) (id : Nat)
  | g_child_watch_attach (pid : Nat) (id : Nat)
  | g_source_remove (id : Nat)
  | g_spawn_async (program : String) (spawned : Option Nat)
  | waitpid (pid : Nat)
  | g_signal_handler_disconnect (id : Nat)
  | nm_warning (w : Warning)
  | nm_info (i : Info)
  deriving DecidableEq, Repr

/-- The struct `NMVPNServicePrivate`, without the D-Bus manager pointer. -/
structure NMVPNServicePrivate where
  name : String
  dbus_service : String
  program : String
  pid : Nat
  connections : List Conn
  service_start_timeout : Nat
  name_owner_id : Nat
  deriving DecidableEq, Repr

/-- What a pending main-loop source will call. -/
inductive SourceKind where
  | idle (f : GSourceFunc)
  | timeout (ms : Nat) (f : GSourceFunc)
  | child_watch (pid : Nat)
  deriving DecidableEq, Repr

/-- A source attached to the default main context. -/
structure GSource where
  id : Nat
  kind : SourceKind
  deriving DecidableEq, Repr

/-- The service object together with the part of the world it acts on:
its reference count, the pending main-loop sources, the last source id GLib
handed out, and the trace of calls made so far. -/
structure Machine where
  priv : NMVPNServicePrivate
  ref_count : Nat
  sources : List GSource
  last_source_id : Nat
  trace : List Call
  deriving DecidableEq, Repr

/-! ## GLib primitives -/

/-- Append calls to the trace. -/
def Machine.emit (m : Machine) (cs : List Call) : Machine :=
  { m with trace := m.trace ++ cs }

/-- Attach a source: GLib allots the next id, which is positive. -/
def g_source_attach (m : Machine) (k : SourceKind) : Nat × Machine :=
  let id := m.last_source_id + 1
  (id, { m with sources := m.sources ++ [⟨id, k⟩], last_source_id := id })

/-- The call `g_idle_add (f, service)`. -/
def g_idle_add (m : Machine) (f : GSourceFunc) : Nat × Machine :=
  let r := g_source_attach m (.idle f)
  (r.1, r.2.emit [.g_idle_add f r.1])

/-- The call `g_timeout_add (ms, f, service)`. -/
def g_timeout_add (m : Machine) (ms : Nat) (f : GSourceFunc) : Nat × Machine :=
  let r := g_source_attach m (.timeout ms f)
  (r.1, r.2.emit [.g_timeout_add ms f r.1])

/-- The calls `g_child_watch_source_new (pid)`, `g_source_set_callback` with
`vpn_service_watch_cb`, `g_source_attach`, `g_source_unref`. -/
def g_child_watch_attach (m : Machine) (pid : Nat) : Nat × Machine :=
  let r := g_source_attach m (.child_watch pid)
  (r.1, r.2.emit [.g_child_watch_attach pid r.1])

/-- The main loop forgets a source (after its callback returned FALSE, or on removal). -/
def Machine.drop_source (m : Machine) (id : Nat) : Machine :=
  { m with sources := m.sources.filter (fun s => s.id != id) }

/-- The call `g_source_remove (id)`: the source will not be dispatched any more. -/
def g_source_remove (m : Machine) (id : Nat) : Machine :=
  (m.drop_source id).emit [.g_source_remove id]

/-! ## Wait statuses (`<sys/wait.h>`, Linux encoding) -/

/-- The 32-bit pattern of a `gint` status. -/
def status_bits (status : Int) : Nat := (status % 4294967296).toNat

/-- The macro `WTERMSIG (status)`, which is `status & 0x7f`. -/
def WTERMSIG (status : Int) : Nat := status_bits status % 128

/-- The macro `WEXITSTATUS (status)`, which is `(status & 0xff00) >> 8`. -/
def WEXITSTATUS (status : Int) : Nat := status_bits status / 256 % 256

/-- The macro `WSTOPSIG (status)`, defined as `WEXITSTATUS (status)`. -/
def WSTOPSIG (status : Int) : Nat := WEXITSTATUS status

/-- The macro `WIFEXITED (status)`, which is `WTERMSIG (status) == 0`. -/
def WIFEXITED (status : Int) : Bool := WTERMSIG status == 0

/-- The macro `WIFSTOPPED (status)`, which is `(status & 0xff) == 0x7f`. -/
def WIFSTOPPED (status : Int) : Bool := status_bits status % 256 == 127

/-- The macro `WIFSIGNALED (status)`: `((signed char) ((status & 0x7f) + 1) >> 1) > 0`,
true exactly when the low seven bits are neither 0 nor 0x7f. -/
def WIFSIGNALED (status : Int) : Bool :=
  decide (0 < WTERMSIG status ∧ WTERMSIG status < 127)

/-! ## The functions of nm-vpn-service.c -/

/-- The function `nm_vpn_service_connections_stop (service, fail)`: walk the list and
call `nm_vpn_connection_fail` or `nm_vpn_connection_disconnect` on each entry. -/
def nm_vpn_service_connections_stop (m : Machine) (fail : Bool) : Machine :=
  m.emit (m.priv.connections.map fun c =>
    if fail then Call.nm_vpn_connection_fail c else Call.nm_vpn_connection_disconnect c)

/-- The child-watch callback `vpn_service_watch_cb (pid, status, service)`. -/
def vpn_service_watch_cb (m : Machine) (pid : Nat) (status : Int) : Machine :=
  let m1 :=
    if WIFEXITED status then
      let err := WEXITSTATUS status
      if err ≠ 0 then m.emit [.nm_warning (.exited_with_error (WSTOPSIG status))] else m
    else if WIFSTOPPED status then
      m.emit [.nm_warning (.stopped_unexpectedly (WSTOPSIG status))]
    else if WIFSIGNALED status then
      m.emit [.nm_warning (.died_with_signal (WTERMSIG status))]
    else
      m.emit [.nm_warning .died_unknown_cause]
  let m2 := m1.emit [.waitpid pid]
  let m3 := { m2 with priv := { m2.priv with pid := 0 } }
  nm_vpn_service_connections_stop m3 true

/-- The timer callback `nm_vpn_service_timeout (service)`; the Boolean is its return value. -/
def nm_vpn_service_timeout (m : Machine) : Machine × Bool :=
  let m1 := m.emit [.nm_info .did_not_start_in_time]
  let m2 := { m1 with priv := { m1.priv with service_start_timeout := 0 } }
  (nm_vpn_service_connections_stop m2 true, false)

/-- The idle callback `nm_vpn_service_daemon_exec (service)`.  `spawned` is the outcome
of `g_spawn_async`: `some pid` when it launched the program (and stored the pid in
`priv->pid`), `none` when it failed (and left `priv->pid` alone). -/
def nm_vpn_service_daemon_exec (m : Machine) (spawned : Option Nat) : Machine × Bool :=
  let m1 := m.emit [.g_spawn_async m.priv.program spawned]
  match spawned with
  | some pid =>
    let m2 := { m1 with priv := { m1.priv with pid := pid } }
    let m3 := (g_child_watch_attach m2 m2.priv.pid).2
    let m4 := m3.emit [.nm_info (.executed m3.priv.pid)]
    let r := g_timeout_add m4 2000 .nm_vpn_service_timeout
    ({ r.2 with priv := { r.2.priv with service_start_timeout := r.1 } }, false)
  | none =>
    let m2 := m1.emit [.nm_warning .could_not_launch]
    (nm_vpn_service_connections_stop m2 true, false)

/-- The destructor `finalize (object)` installed in `nm_vpn_service_class_init`. -/
def finalize (m : Machine) : Machine :=
  let m1 :=
    if m.priv.service_start_timeout ≠ 0 then g_source_remove m m.priv.service_start_timeout
    else m
  let m2 := nm_vpn_service_connections_stop m1 false
  m2.emit [.g_signal_handler_disconnect m2.priv.name_owner_id]

/-- The call `g_object_unref (service)`: drop one reference; dropping the last one
runs `finalize` and the object is gone. -/
def g_object_unref_service (m : Machine) : Machine :=
  let m1 := m.emit [.g_object_unref_service]
  if m1.ref_count ≤ 1 then { finalize m1 with ref_count := 0 }
  else { m1 with ref_count := m1.ref_count - 1 }

/-- The timer callback `destroy_service (service)`. -/
def destroy_service (m : Machine) : Machine × Bool :=
  (g_object_unref_service m, false)

/-- The signal handler `connection_state_changed (connection, state, service)`. -/
def connection_state_changed (m : Machine) (connection : Conn)
    (state : NMVPNConnectionState) : Machine :=
  match state with
  | .failed | .disconnected =>
    let m1 := { m with priv := { m.priv with connections := m.priv.connections.erase connection } }
    let m2 := m1.emit [.g_object_unref_connection connection]
    if m2.priv.connections = [] then (g_timeout_add m2 10000 .destroy_service).2
    else m2
  | _ => m

/-- The function `nm_vpn_service_activate (service, connection, device)`, for valid
arguments.  `vpn_connection` is the object `nm_vpn_connection_new` returns and
`has_owner` the answer of `nm_dbus_manager_name_has_owner` for `priv->dbus_service`. -/
def nm_vpn_service_activate (m : Machine) (vpn_connection : Conn) (has_owner : Bool) :
    Conn × Machine :=
  let m1 := m.emit [.g_signal_connect_state_changed vpn_connection]
  let m2 := { m1 with priv := { m1.priv with connections := vpn_connection :: m1.priv.connections } }
  let m3 :=
    if has_owner then m2.emit [.nm_vpn_connection_activate vpn_connection]
    else if m2.priv.service_start_timeout = 0 then
      (g_idle_add (m2.emit [.nm_info .exec_scheduled]) .nm_vpn_service_daemon_exec).2
    else m2
  (vpn_connection, m3)

/-- The test `owner && (strlen (owner) > 0)` on a possibly-NULL owner string. -/
def owner_good (owner : Option String) : Bool :=
  match owner with
  | none => false
  | some s => decide (0 < s.length)

/-- The signal handler `nm_vpn_service_name_owner_changed (mgr, name, old, new, service)`. -/
def nm_vpn_service_name_owner_changed (m : Machine) (name : String)
    (old new : Option String) : Machine :=
  if name ≠ m.priv.dbus_service then m
  else
    let m1 :=
      if m.priv.service_start_timeout ≠ 0 then
        let m0 := g_source_remove m m.priv.service_start_timeout
        { m0 with priv := { m0.priv with service_start_timeout := 0 } }
      else m
    let old_owner_good := owner_good old
    let new_owner_good := owner_good new
    if !old_owner_good && new_owner_good then
      let m2 := m1.emit [.nm_info .just_appeared]
      m2.emit (m2.priv.connections.map Call.nm_vpn_connection_activate)
    else if old_owner_good && !new_owner_good then
      let m2 := m1.emit [.nm_info .disappeared]
      nm_vpn_service_connections_stop m2 true
    else m1

/-- The instance initialiser `nm_vpn_service_init`: GObject hands out zeroed private
data (the empty string stands for a NULL string) with one reference held by the
creator; `name_owner_id` is the handler id `g_signal_connect` returns. -/
def nm_vpn_service_init (name_owner_id : Nat) : Machine :=
  { priv := { name := "", dbus_service := "", program := "", pid := 0, connections := [],
              service_start_timeout := 0, name_owner_id := name_owner_id },
    ref_count := 1, sources := [], last_source_id := 0, trace := [] }

/-- The object `nm_vpn_service_new` returns once it has read `dbus_service` and
`program` from the key file: `g_object_new` followed by the three assignments. -/
def service_created (name dbus_service program : String) (name_owner_id : Nat) : Machine :=
  let m := nm_vpn_service_init name_owner_id
  { m with priv := { m.priv with name := name, dbus_service := dbus_service, program := program } }

/-! ## The service registry (`find_service_file`, `nm_vpn_service_new`) -/

/-- The group name `VPN_CONNECTION_GROUP`. -/
def VPN_CONNECTION_GROUP : String := "VPN Connection"

/-- A loaded key file, seen through `g_key_file_get_string (key_file, group, key, NULL)`:
the value of the key, or `none` for NULL. -/
structure GKeyFile where
  get_string : String → String → Option String

/-- One name returned by `g_dir_read_name` for `VPN_NAME_FILES_DIR`, with the key file that
`g_key_file_load_from_file` reads from it (`none` when loading fails). -/
structure DirEntry where
  fn : String
  load : Option GKeyFile

/-- The flag `found` at the end of one round of the loop in `find_service_file`: the file
loaded, it has a "service" key in the group, and `strcmp (val, name)` is 0. -/
def DirEntry.found (e : DirEntry) (name : String) : Bool :=
  match e.load with
  | some key_file =>
    match key_file.get_string VPN_CONNECTION_GROUP "service" with
    | some val => val == name
    | none => false
  | none => false

/-- The `while` loop of `find_service_file` over the directory entries in reading order:
stop at the first entry that sets `found` and keep its key file; a key file that does not
match is freed and the variable reset to NULL. -/
def find_service_file_loop (name : String) : List DirEntry → Option GKeyFile
  | [] => none
  | e :: rest => if e.found name then e.load else find_service_file_loop name rest

/-- The function `find_service_file (name)`.  `dir` is what `g_dir_open` gives for
`VPN_NAME_FILES_DIR`: `none` when it fails, otherwise the entries in reading order. -/
def find_service_file (dir : Option (List DirEntry)) (name : String) : Option GKeyFile :=
  match dir with
  | none => none
  | some entries => find_service_file_loop name entries

/-- The constructor `nm_vpn_service_new (name)` for a non-NULL name; `none` is the NULL
result.  `g_object_new` is taken to succeed. -/
def nm_vpn_service_new (dir : Option (List DirEntry)) (name : String) (name_owner_id : Nat) :
    Option Machine :=
  match find_service_file dir name with
  | none => none
  | some key_file =>
    match key_file.get_string VPN_CONNECTION_GROUP "service" with
    | none => none
    | some dbus_service =>
      match key_file.get_string VPN_CONNECTION_GROUP "program" with
      | none => none
      | some program => some (service_created name dbus_service program name_owner_id)

/-- A key file with the given "service" value and, when given, "program" value in the
group `VPN Connection`, and no other key. -/
def service_record (service : String) (program : Option String) : GKeyFile :=
  ⟨fun group key =>
    if group = "VPN Connection" ∧ key = "service" then some service
    else if group = "VPN Connection" ∧ key = "program" then program
    else none⟩

/-- A directory with a file that does not load, a record of another service, and two
records of the service "org.example.vpn.openvpn". -/
def example_directory : List DirEntry :=
  [⟨"broken.name", none⟩,
   ⟨"pptp.name", some (service_record "org.example.vpn.pptp" (some "/usr/libexec/nm-pptp-service"))⟩,
   ⟨"openvpn.name",
     some (service_record "org.example.vpn.openvpn" (some "/usr/libexec/nm-openvpn-service"))⟩,
   ⟨"openvpn2.name", some (service_record "org.example.vpn.openvpn" (some "/opt/openvpn"))⟩]

/-! ## The event loop -/

/-- Run one of the registered callbacks. -/
def GSourceFunc.call (f : GSourceFunc) (m : Machine) (spawned : Option Nat) : Machine × Bool :=
  match f with
  | .nm_vpn_service_daemon_exec => NMVPN.nm_vpn_service_daemon_exec m spawned
  | .nm_vpn_service_timeout => NMVPN.nm_vpn_service_timeout m
  | .destroy_service => NMVPN.destroy_service m

/-- What can happen to a service: a caller activates a connection, a connection
reports a state, the D-Bus manager reports an owner change, the main loop dispatches
a pending idle or timeout source, or a watched child exits. -/
inductive Event where
  | activate (vpn_connection : Conn) (has_owner : Bool)
  | state_changed (connection : Conn) (state : NMVPNConnectionState)
  | name_owner_changed (name : String) (old new : Option String)
  | dispatch (id : Nat) (spawned : Option Nat)
  | child_exited (id : Nat) (status : Int)
  deriving DecidableEq, Repr

/-- The main loop dispatches the pending idle or timeout source `id`; a callback that
returns FALSE has its source destroyed. -/
def dispatch (m : Machine) (id : Nat) (spawned : Option Nat) : Option Machine :=
  match m.sources.find? (fun s => s.id == id) with
  | some ⟨_, .idle f⟩ =>
    let r := f.call m spawned
    some (if r.2 then r.1 else r.1.drop_source id)
  | some ⟨_, .timeout _ f⟩ =>
    let r := f.call m spawned
    some (if r.2 then r.1 else r.1.drop_source id)
  | _ => none

/-- The child watched by source `id` exits with `status`: the watch callback runs
once and the source is destroyed. -/
def child_exited (m : Machine) (id : Nat) (status : Int) : Option Machine :=
  match m.sources.find? (fun s => s.id == id) with
  | some ⟨_, .child_watch pid⟩ => some ((vpn_service_watch_cb m pid status).drop_source id)
  | _ => none

/-- One event on a live service.  `none`: the event cannot happen (the source is not
pending, `g_spawn_async` cannot report a child with pid 0) or the object has been
freed, after which the C program has no defined behaviour. -/
def step (m : Machine) (e : Event) : Option Machine :=
  if m.ref_count = 0 then none
  else match e with
    | .activate c has_owner => some (nm_vpn_service_activate m c has_owner).2
    | .state_changed c state => some (connection_state_changed m c state)
    | .name_owner_changed name old new => some (nm_vpn_service_name_owner_changed m name old new)
    | .dispatch id spawned => if spawned = some 0 then none else dispatch m id spawned
    | .child_exited id status => child_exited m id status

/-- A sequence of events, from left to right. -/
def run (m : Machine) : List Event → Option Machine
  | [] => some m
  | e :: es => (step m e).bind fun m1 => run m1 es

/-! ## Reading the trace -/

/-- The calls made between machine state `m0` and a later state `m`. -/
def calls_since (m0 m : Machine) : List Call := m.trace.drop m0.trace.length

/-- The three commands the service sends to a connection. -/
def Call.is_command : Call → Bool
  | .nm_vpn_connection_activate _ => true
  | .nm_vpn_connection_fail _ => true
  | .nm_vpn_connection_disconnect _ => true
  | _ => false

/-- The commands among a list of calls, in order. -/
def commands (cs : List Call) : List Call := cs.filter Call.is_command

/-- A call of `g_idle_add`. -/
def Call.is_idle_add : Call → Bool
  | .g_idle_add _ _ => true
  | _ => false

/-- A call of `g_timeout_add`. -/
def Call.is_timeout_add : Call → Bool
  | .g_timeout_add _ _ _ => true
  | _ => false

/-- A call of `g_source_remove`. -/
def Call.is_source_remove : Call → Bool
  | .g_source_remove _ => true
  | _ => false

/-- A call of `g_spawn_async`. -/
def Call.is_spawn : Call → Bool
  | .g_spawn_async _ _ => true
  | _ => false

/-- Calling `nm_vpn_service_activate` once for each connection of `cs`, in order, with
the same answer of the owner query. -/
def activate_all (m : Machine) (cs : List Conn) (has_owner : Bool) : Machine :=
  cs.foldl (fun m1 c => (nm_vpn_service_activate m1 c has_owner).2) m

/-- The calls made by `nm_vpn_service_activate` for each connection of `cs` in turn
while the bus name is owned. -/
def owned_activate_calls : List Conn → List Call
  | [] => []
  | c :: cs =>
    .g_signal_connect_state_changed c :: .nm_vpn_connection_activate c :: owned_activate_calls cs

/-- Every pending source carries an id GLib has already handed out. -/
def Machine.sources_ok (m : Machine) : Prop := ∀ s ∈ m.sources, s.id ≤ m.last_source_id

instance (m : Machine) : Decidable m.sources_ok := by
  unfold Machine.sources_ok; infer_instance

/-- An activation event. -/
def Event.is_activate : Event → Bool
  | .activate _ _ => true
  | _ => false

/-- An event in which `g_spawn_async` launches a daemon. -/
def Event.launches : Event → Bool
  | .dispatch _ (some _) => true
  | _ => false

/-- A process-exit event. -/
def Event.is_child_exit : Event → Bool
  | .child_exited _ _ => true
  | _ => false

/-- A call of `nm_warning`. -/
def Call.is_warning : Call → Bool
  | .nm_warning _ => true
  | _ => false

/-- A call of `g_object_unref` on a connection. -/
def Call.is_unref_connection : Call → Bool
  | .g_object_unref_connection _ => true
  | _ => false

/-- The service of the spec's concrete scenario, freshly created. -/
def example_service : Machine :=
  service_created "openvpn" "org.example.vpn.openvpn" "/usr/libexec/nm-openvpn-service" 1

/-- Every process exit of the run `es` from `m` is handled in a state whose startup-timer
handle is 0 (no startup timer is pending when the child is reaped). -/
def exits_after_startup (m : Machine) : List Event → Bool
  | [] => true
  | e :: es =>
    (!e.is_child_exit || m.priv.service_start_timeout == 0) &&
      match step m e with
      | some m1 => exits_after_startup m1 es
      | none => true

/-- A run of the example service in which the daemon starts, claims the bus name, exits,
loses the name, and is started again for a second connection. -/
def restart_run : List Event :=
  [.activate 1 false, .dispatch 1 (some 100),
   .name_owner_changed "org.example.vpn.openvpn" none (some "1.23"),
   .child_exited 2 256,
   .name_owner_changed "org.example.vpn.openvpn" (some "1.23") none,
   .activate 2 false, .dispatch 4 (some 101)]

/-- The state of the example service after `restart_run`. -/
def restarted_service : Machine := (run example_service restart_run).getD example_service

/-! ## Basic facts about the trace -/

theorem calls_since_append (m : Machine) (cs : List Call) (m1 : Machine)
    (h : m1.trace = m.trace ++ cs) : calls_since m m1 = cs := by
  simp [calls_since, h]

theorem commands_map_fail (l : List Conn) :
    commands (l.map Call.nm_vpn_connection_fail) = l.map Call.nm_vpn_connection_fail := by
  induction l with
  | nil => rfl
  | cons c l ih =>
    simp only [commands] at ih
    simp [commands, List.filter_cons, Call.is_command, ih]

theorem commands_map_activate (l : List Conn) :
    commands (l.map Call.nm_vpn_connection_activate) = l.map Call.nm_vpn_connection_activate := by
  induction l with
  | nil => rfl
  | cons c l ih =>
    simp only [commands] at ih
    simp [commands, List.filter_cons, Call.is_command, ih]

theorem commands_map_disconnect (l : List Conn) :
    commands (l.map Call.nm_vpn_connection_disconnect) =
      l.map Call.nm_vpn_connection_disconnect := by
  induction l with
  | nil => rfl
  | cons c l ih =>
    simp only [commands] at ih
    simp [commands, List.filter_cons, Call.is_command, ih]

theorem count_map_fail (l : List Conn) (c : Conn) :
    (l.map Call.nm_vpn_connection_fail).count (.nm_vpn_connection_fail c) = l.count c := by
  induction l with
  | nil => rfl
  | cons d l ih => simp [List.count_cons, ih]

theorem count_map_activate (l : List Conn) (c : Conn) :
    (l.map Call.nm_vpn_connection_activate).count (.nm_vpn_connection_activate c) = l.count c := by
  induction l with
  | nil => rfl
  | cons d l ih => simp [List.count_cons, ih]

theorem count_map_disconnect (l : List Conn) (c : Conn) :
    (l.map Call.nm_vpn_connection_disconnect).count (.nm_vpn_connection_disconnect c)
      = l.count c := by
  induction l with
  | nil => rfl
  | cons d l ih => simp [List.count_cons, ih]

/-! ## Activation while the bus name is owned -/

theorem activate_owned (m : Machine) (c : Conn) :
    (nm_vpn_service_activate m c true).2 =
      { m with priv := { m.priv with connections := c :: m.priv.connections },
               trace := m.trace ++
                 [.g_signal_connect_state_changed c, .nm_vpn_connection_activate c] } := by
  simp [nm_vpn_service_activate, Machine.emit]

theorem activate_all_owned (cs : List Conn) : ∀ m : Machine,
    activate_all m cs true =
      { m with priv := { m.priv with connections := cs.reverse ++ m.priv.connections },
               trace := m.trace ++ owned_activate_calls cs } := by
  induction cs with
  | nil => intro m; simp [activate_all, owned_activate_calls]
  | cons c cs ih =>
    intro m
    have h := ih (nm_vpn_service_activate m c true).2
    simp only [activate_all, List.foldl_cons] at h ⊢
    rw [h, activate_owned]
    simp [owned_activate_calls]

theorem commands_owned_activate_calls (cs : List Conn) :
    commands (owned_activate_calls cs) = cs.map Call.nm_vpn_connection_activate := by
  induction cs with
  | nil => rfl
  | cons c cs ih =>
    simp only [commands] at ih
    simp [owned_activate_calls, commands, List.filter_cons, Call.is_command, ih]

theorem count_owned_activate_calls (cs : List Conn) (c : Conn) :
    (owned_activate_calls cs).count (.nm_vpn_connection_activate c) = cs.count c := by
  induction cs with
  | nil => rfl
  | cons d cs ih => simp [owned_activate_calls, List.count_cons, ih]

theorem idle_owned_activate_calls (cs : List Conn) :
    (owned_activate_calls cs).filter Call.is_idle_add = [] := by
  induction cs with
  | nil => rfl
  | cons c cs ih => simp [owned_activate_calls, List.filter_cons, Call.is_idle_add, ih]

/-- C1: while the bus name is owned, one call of `nm_vpn_service_activate` returns the
new connection, puts it at the head of the list, makes exactly the calls "connect the
state-changed handler" and "activate this connection", and attaches no main-loop source.
For a sequence `cs` of such calls: all of `cs` are attached (the list grows by
`cs.length`), the commands sent are one activate per call in call order, every connection
is sent activate as many times as it was passed in (once when passed once), no
`g_idle_add` is called and no source is pending that was not pending before. -/
theorem activate_owned_sequence (m : Machine) (cs : List Conn) :
    (∀ c, (nm_vpn_service_activate m c true).1 = c ∧
      (nm_vpn_service_activate m c true).2.priv.connections = c :: m.priv.connections ∧
      calls_since m (nm_vpn_service_activate m c true).2 =
        [.g_signal_connect_state_changed c, .nm_vpn_connection_activate c] ∧
      (nm_vpn_service_activate m c true).2.sources = m.sources) ∧
    (activate_all m cs true).priv.connections = cs.reverse ++ m.priv.connections ∧
    (activate_all m cs true).priv.connections.length = m.priv.connections.length + cs.length ∧
    commands (calls_since m (activate_all m cs true)) = cs.map Call.nm_vpn_connection_activate ∧
    (∀ c, (calls_since m (activate_all m cs true)).count (.nm_vpn_connection_activate c)
        = cs.count c) ∧
    (calls_since m (activate_all m cs true)).filter Call.is_idle_add = [] ∧
    (activate_all m cs true).sources = m.sources := by
  have hs : calls_since m (activate_all m cs true) = owned_activate_calls cs :=
    calls_since_append m _ _ (by rw [activate_all_owned])
  refine ⟨fun c => ⟨rfl, ?_, ?_, ?_⟩, ?_, ?_, ?_, ?_, ?_, ?_⟩
  · rw [activate_owned]
  · exact calls_since_append m _ _ (by rw [activate_owned])
  · rw [activate_owned]
  · rw [activate_all_owned]
  · rw [activate_all_owned]; simp; omega
  · rw [hs, commands_owned_activate_calls]
  · intro c; rw [hs, count_owned_activate_calls]
  · rw [hs, idle_owned_activate_calls]
  · rw [activate_all_owned]

/-! ## Shapes of the callbacks -/

theorem connections_stop_eq (m : Machine) (fail : Bool) :
    nm_vpn_service_connections_stop m fail =
      { m with trace := m.trace ++ m.priv.connections.map fun c =>
          if fail then Call.nm_vpn_connection_fail c else Call.nm_vpn_connection_disconnect c } := rfl

theorem timeout_eq (m : Machine) :
    (nm_vpn_service_timeout m).1 =
      { m with priv := { m.priv with service_start_timeout := 0 },
               trace := m.trace ++ (.nm_info .did_not_start_in_time ::
                 m.priv.connections.map Call.nm_vpn_connection_fail) } := by
  simp [nm_vpn_service_timeout, nm_vpn_service_connections_stop, Machine.emit]

theorem name_owner_changed_no_timer (m : Machine) (old new : Option String)
    (h : m.priv.service_start_timeout = 0) :
    (calls_since m (nm_vpn_service_name_owner_changed m m.priv.dbus_service old new)).filter
      Call.is_source_remove = [] := by
  unfold nm_vpn_service_name_owner_changed
  simp only [ne_eq, not_true_eq_false, if_false, h]
  split
  · rw [calls_since_append m (.nm_info .just_appeared ::
      m.priv.connections.map Call.nm_vpn_connection_activate)]
    · simp [List.filter_cons, Call.is_source_remove]
    · simp [Machine.emit]
  · split
    · rw [calls_since_append m (.nm_info .disappeared ::
        m.priv.connections.map Call.nm_vpn_connection_fail)]
      · simp [List.filter_cons, Call.is_source_remove]
      · simp [nm_vpn_service_connections_stop, Machine.emit]
    · simp [calls_since]

/-! ## The daemon process exits -/

theorem watch_cb_shape (m : Machine) (pid : Nat) (status : Int) :
    ∃ log : List Call, commands log = [] ∧
      vpn_service_watch_cb m pid status =
        { m with priv := { m.priv with pid := 0 },
                 trace := m.trace ++ (log ++ m.priv.connections.map Call.nm_vpn_connection_fail) } := by
  unfold vpn_service_watch_cb
  by_cases h1 : WIFEXITED status = true
  · by_cases h2 : WEXITSTATUS status = 0
    · exact ⟨[.waitpid pid], rfl, by
        simp [h1, h2, nm_vpn_service_connections_stop, Machine.emit]⟩
    · exact ⟨[.nm_warning (.exited_with_error (WSTOPSIG status)), .waitpid pid], rfl, by
        simp [h1, h2, nm_vpn_service_connections_stop, Machine.emit]⟩
  · by_cases h3 : WIFSTOPPED status = true
    · exact ⟨[.nm_warning (.stopped_unexpectedly (WSTOPSIG status)), .waitpid pid], rfl, by
        simp [h1, h3, nm_vpn_service_connections_stop, Machine.emit]⟩
    · by_cases h4 : WIFSIGNALED status = true
      · exact ⟨[.nm_warning (.died_with_signal (WTERMSIG status)), .waitpid pid], rfl, by
          simp [h1, h3, h4, nm_vpn_service_connections_stop, Machine.emit]⟩
      · exact ⟨[.nm_warning .died_unknown_cause, .waitpid pid], rfl, by
          simp [h1, h3, h4, nm_vpn_service_connections_stop, Machine.emit]⟩

theorem commands_append (a b : List Call) : commands (a ++ b) = commands a ++ commands b := by
  simp [commands]

/-- C5: for every wait status, `vpn_service_watch_cb` sends fail to each entry of the
connection list in list order and no other command (every connection gets fail once per
entry), sets the stored pid to 0 and changes nothing else in the private data: the
connection list and the startup-timer handle are as before, and so are the pending
sources. -/
theorem child_exit_fails_connections (m : Machine) (pid : Nat) (status : Int) :
    commands (calls_since m (vpn_service_watch_cb m pid status)) =
      m.priv.connections.map Call.nm_vpn_connection_fail ∧
    (∀ c, (calls_since m (vpn_service_watch_cb m pid status)).count (.nm_vpn_connection_fail c)
      = m.priv.connections.count c) ∧
    (vpn_service_watch_cb m pid status).priv.pid = 0 ∧
    (vpn_service_watch_cb m pid status).priv.connections = m.priv.connections ∧
    (vpn_service_watch_cb m pid status).priv.service_start_timeout =
      m.priv.service_start_timeout ∧
    (vpn_service_watch_cb m pid status).priv = { m.priv with pid := 0 } ∧
    (vpn_service_watch_cb m pid status).sources = m.sources := by
  obtain ⟨log, hlog, heq⟩ := watch_cb_shape m pid status
  have hs : calls_since m (vpn_service_watch_cb m pid status) =
      log ++ m.priv.connections.map Call.nm_vpn_connection_fail :=
    calls_since_append m _ _ (by rw [heq])
  refine ⟨?_, ?_, ?_, ?_, ?_, ?_, ?_⟩
  · rw [hs, commands_append, hlog, commands_map_fail]; rfl
  · intro c
    rw [hs, List.count_append, count_map_fail]
    have : log.count (.nm_vpn_connection_fail c) = 0 := by
      apply List.count_eq_zero_of_not_mem
      intro hmem
      have : Call.nm_vpn_connection_fail c ∈ commands log := by
        simp [commands, List.mem_filter, hmem, Call.is_command]
      rw [hlog] at this
      simp at this
    omega
  all_goals rw [heq]

theorem count_fail_of_commands_free (log : List Call) (c : Conn) (h : commands log = []) :
    log.count (.nm_vpn_connection_fail c) = 0 := by
  apply List.count_eq_zero_of_not_mem
  intro hmem
  have : Call.nm_vpn_connection_fail c ∈ commands log := by
    simp [commands, List.mem_filter, hmem, Call.is_command]
  rw [h] at this
  simp at this

/-! ## The bus name changes owner -/

theorem owner_lost_shape (m : Machine) (old new : Option String)
    (hold : owner_good old = true) (hnew : owner_good new = false) :
    ∃ log : List Call, commands log = [] ∧
      (nm_vpn_service_name_owner_changed m m.priv.dbus_service old new).trace =
        m.trace ++ (log ++ m.priv.connections.map Call.nm_vpn_connection_fail) := by
  unfold nm_vpn_service_name_owner_changed
  by_cases ht : m.priv.service_start_timeout = 0
  · exact ⟨[.nm_info .disappeared], rfl, by
      simp [ht, hold, hnew, nm_vpn_service_connections_stop, Machine.emit]⟩
  · exact ⟨[.g_source_remove m.priv.service_start_timeout, .nm_info .disappeared], rfl, by
      simp [ht, hold, hnew, nm_vpn_service_connections_stop, Machine.emit, g_source_remove,
        Machine.drop_source]⟩

/-- C6: handling a name-owner-changed event for the service's own bus name whose old owner
is present (non-empty) and whose new owner is absent (NULL or empty) sends fail to each
entry of the connection list in list order and no other command: every connection gets fail
once per entry and no activate is sent.  The calls made do not depend on the stored pid:
they are the same on the state with any other pid value. -/
theorem name_owner_disappeared (m : Machine) (old new : Option String) (pid : Nat)
    (hold : owner_good old = true) (hnew : owner_good new = false) :
    commands (calls_since m (nm_vpn_service_name_owner_changed m m.priv.dbus_service old new)) =
      m.priv.connections.map Call.nm_vpn_connection_fail ∧
    (∀ c, (calls_since m (nm_vpn_service_name_owner_changed m m.priv.dbus_service old new)).count
        (.nm_vpn_connection_fail c) = m.priv.connections.count c) ∧
    (∀ c, Call.nm_vpn_connection_activate c ∉
        calls_since m (nm_vpn_service_name_owner_changed m m.priv.dbus_service old new)) ∧
    calls_since { m with priv := { m.priv with pid := pid } }
        (nm_vpn_service_name_owner_changed { m with priv := { m.priv with pid := pid } }
          m.priv.dbus_service old new) =
      calls_since m (nm_vpn_service_name_owner_changed m m.priv.dbus_service old new) := by
  obtain ⟨log, hlog, heq⟩ := owner_lost_shape m old new hold hnew
  have hs := calls_since_append m _ _ heq
  refine ⟨?_, ?_, ?_, ?_⟩
  · rw [hs, commands_append, hlog, commands_map_fail]; rfl
  · intro c
    rw [hs, List.count_append, count_map_fail, count_fail_of_commands_free log c hlog]
    omega
  · intro c hmem
    have : Call.nm_vpn_connection_activate c ∈
        commands (log ++ m.priv.connections.map Call.nm_vpn_connection_fail) := by
      rw [hs] at hmem
      simp only [commands, List.mem_filter]
      exact ⟨hmem, rfl⟩
    rw [commands_append, hlog, commands_map_fail] at this
    simp at this
  · unfold nm_vpn_service_name_owner_changed
    by_cases ht : m.priv.service_start_timeout = 0
    · simp [ht, hold, hnew, nm_vpn_service_connections_stop, Machine.emit, calls_since]
    · simp [ht, hold, hnew, nm_vpn_service_connections_stop, Machine.emit, calls_since,
        g_source_remove, Machine.drop_source]

theorem name_owner_disappeared_witness :
    owner_good (some "1.23") = true ∧ owner_good none = false ∧
    commands (calls_since (activate_all example_service [1, 2] true)
      (nm_vpn_service_name_owner_changed (activate_all example_service [1, 2] true)
        "org.example.vpn.openvpn" (some "1.23") none)) =
      [.nm_vpn_connection_fail 2, .nm_vpn_connection_fail 1] :=
  ⟨by decide, by decide,
    (name_owner_disappeared (activate_all example_service [1, 2] true) (some "1.23") none 0
      (by decide) (by decide)).1⟩

/-! ## The deferred launch -/

theorem daemon_exec_failed_eq (m : Machine) :
    (nm_vpn_service_daemon_exec m none).1 =
      { m with trace := m.trace ++ (.g_spawn_async m.priv.program none ::
          .nm_warning .could_not_launch :: m.priv.connections.map Call.nm_vpn_connection_fail) } := by
  simp [nm_vpn_service_daemon_exec, nm_vpn_service_connections_stop, Machine.emit]

/-- C7: on a state with no daemon process (pid 0) and no pending startup timer (handle 0),
when the deferred launch runs and `g_spawn_async` fails, the callback returns FALSE (it is
not run again), its calls are the spawn attempt, a warning, and fail for each entry of the
connection list in list order (every connection gets fail once per entry); afterwards the
pid and the timer handle are 0, the connection list is unchanged and no source (exit
watcher, timer or idle) has been attached. -/
theorem spawn_failure (m : Machine) (hpid : m.priv.pid = 0)
    (htimer : m.priv.service_start_timeout = 0) :
    (nm_vpn_service_daemon_exec m none).2 = false ∧
    calls_since m (nm_vpn_service_daemon_exec m none).1 =
      .g_spawn_async m.priv.program none :: .nm_warning .could_not_launch ::
        m.priv.connections.map Call.nm_vpn_connection_fail ∧
    commands (calls_since m (nm_vpn_service_daemon_exec m none).1) =
      m.priv.connections.map Call.nm_vpn_connection_fail ∧
    (∀ c, (calls_since m (nm_vpn_service_daemon_exec m none).1).count
        (.nm_vpn_connection_fail c) = m.priv.connections.count c) ∧
    (nm_vpn_service_daemon_exec m none).1.priv.pid = 0 ∧
    (nm_vpn_service_daemon_exec m none).1.priv.service_start_timeout = 0 ∧
    (nm_vpn_service_daemon_exec m none).1.priv.connections = m.priv.connections ∧
    (nm_vpn_service_daemon_exec m none).1.sources = m.sources := by
  have hs := calls_since_append m _ _ (congrArg Machine.trace (daemon_exec_failed_eq m))
  refine ⟨rfl, hs, ?_, ?_, ?_, ?_, ?_, ?_⟩
  · rw [hs]
    have := commands_map_fail m.priv.connections
    simp only [commands] at this ⊢
    simp [List.filter_cons, Call.is_command, this]
  · intro c
    rw [hs, List.count_cons, List.count_cons, count_map_fail]
    simp
  · rw [daemon_exec_failed_eq]; exact hpid
  · rw [daemon_exec_failed_eq]; exact htimer
  · rw [daemon_exec_failed_eq]
  · rw [daemon_exec_failed_eq]

theorem spawn_failure_witness :
    (activate_all example_service [1, 2] false).priv.pid = 0 ∧
    (activate_all example_service [1, 2] false).priv.service_start_timeout = 0 ∧
    commands (calls_since (activate_all example_service [1, 2] false)
      (nm_vpn_service_daemon_exec (activate_all example_service [1, 2] false) none).1) =
      [.nm_vpn_connection_fail 2, .nm_vpn_connection_fail 1] :=
  ⟨by decide, by decide,
    (spawn_failure (activate_all example_service [1, 2] false) (by decide) (by decide)).2.2.1⟩

/-! ## Finalization -/

theorem finalize_trace (m : Machine) :
    (finalize m).trace = m.trace ++
      ((if m.priv.service_start_timeout ≠ 0 then [Call.g_source_remove m.priv.service_start_timeout]
        else []) ++ m.priv.connections.map Call.nm_vpn_connection_disconnect ++
        [.g_signal_handler_disconnect m.priv.name_owner_id]) := by
  unfold finalize
  by_cases ht : m.priv.service_start_timeout = 0
  · simp [ht, nm_vpn_service_connections_stop, Machine.emit]
  · simp [ht, nm_vpn_service_connections_stop, Machine.emit, g_source_remove, Machine.drop_source]

/-- C10: `finalize` calls `g_source_remove` on the startup timer exactly when its handle is
non-zero, then sends disconnect to each entry of the connection list in list order (every
connection gets disconnect once per entry), then disconnects the name-owner handler; it
sends fail to no connection, and the cancelled timer is no longer pending. -/
theorem finalize_disconnects (m : Machine) :
    calls_since m (finalize m) =
      (if m.priv.service_start_timeout ≠ 0 then [Call.g_source_remove m.priv.service_start_timeout]
        else []) ++ m.priv.connections.map Call.nm_vpn_connection_disconnect ++
        [.g_signal_handler_disconnect m.priv.name_owner_id] ∧
    commands (calls_since m (finalize m)) =
      m.priv.connections.map Call.nm_vpn_connection_disconnect ∧
    (∀ c, (calls_since m (finalize m)).count (.nm_vpn_connection_disconnect c) =
      m.priv.connections.count c) ∧
    (∀ c, Call.nm_vpn_connection_fail c ∉ calls_since m (finalize m)) ∧
    (finalize m).sources =
      (if m.priv.service_start_timeout ≠ 0 then
        m.sources.filter (fun s => s.id != m.priv.service_start_timeout)
       else m.sources) := by
  have hs := calls_since_append m _ _ (finalize_trace m)
  refine ⟨hs, ?_, ?_, ?_, ?_⟩
  · rw [hs, commands_append, commands_append, commands_map_disconnect]
    by_cases ht : m.priv.service_start_timeout = 0 <;> simp [ht, commands, Call.is_command]
  · intro c
    rw [hs, List.count_append, List.count_append, count_map_disconnect]
    by_cases ht : m.priv.service_start_timeout = 0 <;> simp [ht, List.count_cons]
  · intro c hmem
    rw [hs] at hmem
    by_cases ht : m.priv.service_start_timeout = 0 <;> simp [ht] at hmem
  · unfold finalize
    by_cases ht : m.priv.service_start_timeout = 0
    · simp [ht, nm_vpn_service_connections_stop, Machine.emit]
    · simp [ht, nm_vpn_service_connections_stop, Machine.emit, g_source_remove,
        Machine.drop_source]

/-! ## A connection reaches a terminal state -/

theorem state_changed_terminal_eq (m : Machine) (c : Conn) (state : NMVPNConnectionState)
    (hstate : state = .failed ∨ state = .disconnected) :
    connection_state_changed m c state =
      if m.priv.connections.erase c = [] then
        { m with priv := { m.priv with connections := [] },
                 sources := m.sources ++ [⟨m.last_source_id + 1, .timeout 10000 .destroy_service⟩],
                 last_source_id := m.last_source_id + 1,
                 trace := m.trace ++ [.g_object_unref_connection c,
                   .g_timeout_add 10000 .destroy_service (m.last_source_id + 1)] }
      else
        { m with priv := { m.priv with connections := m.priv.connections.erase c },
                 trace := m.trace ++ [.g_object_unref_connection c] } := by
  rcases hstate with h | h <;> subst h <;>
    by_cases he : m.priv.connections.erase c = [] <;>
    simp [connection_state_changed, he, g_timeout_add, g_source_attach, Machine.emit]

theorem find_attached (l : List GSource) (id : Nat) (k : SourceKind)
    (h : ∀ s ∈ l, s.id < id) :
    (l ++ [(⟨id, k⟩ : GSource)]).find? (fun s => s.id == id) = some ⟨id, k⟩ := by
  rw [List.find?_append]
  have : l.find? (fun s => s.id == id) = none := by
    rw [List.find?_eq_none]
    intro s hs
    have := h s hs
    simp; omega
  simp [this]

theorem dispatch_timeout_source (m : Machine) (id : Nat) (spawned : Option Nat) (id1 ms : Nat)
    (f : GSourceFunc)
    (h : m.sources.find? (fun s => s.id == id) = some ⟨id1, .timeout ms f⟩) :
    dispatch m id spawned =
      some (if (f.call m spawned).2 then (f.call m spawned).1
            else (f.call m spawned).1.drop_source id) := by
  unfold dispatch
  rw [h]

theorem step_dispatch_none (m : Machine) (id : Nat) (h : m.ref_count ≠ 0) :
    step m (.dispatch id none) = dispatch m id none := by
  simp [step, h]

theorem unref_last_reference (m : Machine) (h : m.ref_count = 1) :
    g_object_unref_service m = { finalize (m.emit [.g_object_unref_service]) with ref_count := 0 } := by
  simp [g_object_unref_service, Machine.emit, h]

theorem destroy_last_reference_trace (m : Machine) (h : m.ref_count = 1) :
    (destroy_service m).1.trace = m.trace ++ (.g_object_unref_service ::
      ((if m.priv.service_start_timeout ≠ 0 then
          [Call.g_source_remove m.priv.service_start_timeout] else []) ++
        m.priv.connections.map Call.nm_vpn_connection_disconnect ++
        [.g_signal_handler_disconnect m.priv.name_owner_id])) := by
  simp only [destroy_service]
  rw [unref_last_reference m h]
  simp only [finalize_trace, Machine.emit]
  simp

theorem destroy_last_reference_count (m : Machine) (h : m.ref_count = 1) :
    (destroy_service m).1.ref_count = 0 := by
  simp only [destroy_service]
  rw [unref_last_reference m h]

theorem erase_ne_nil_of_other (l : List Conn) (c : Conn) (h : ∃ d ∈ l, d ≠ c) :
    l.erase c ≠ [] := by
  obtain ⟨d, hd, hne⟩ := h
  intro he
  have : d ∈ l.erase c := (List.mem_erase_of_ne hne).2 hd
  rw [he] at this
  simp at this

/-- The step-by-step behaviour of the idle reclaim: on a state whose connection list is
exactly `[c]`, with the creator's single reference and well-formed sources, a failed or
disconnected report of `c` empties the list, releases the connection and schedules exactly
one timer: `destroy_service` after 10000 ms.  When the main loop dispatches that timer as
the next event, `destroy_service` returns FALSE and drops the last reference: the reference
count is 0, `finalize` has run and the timer source is gone.  On a state `m2` whose list
holds some connection other than `c`, the same report schedules no timer and attaches no
source; the list is the old one without the first entry `c`. -/
theorem last_connection_terminal (m m2 : Machine) (c : Conn) (state : NMVPNConnectionState)
    (hstate : state = .failed ∨ state = .disconnected)
    (hlist : m.priv.connections = [c])
    (href : m.ref_count = 1) (hsrc : m.sources_ok)
    (hother : ∃ d ∈ m2.priv.connections, d ≠ c) :
    (connection_state_changed m c state).priv.connections = [] ∧
    calls_since m (connection_state_changed m c state) =
      [.g_object_unref_connection c,
       .g_timeout_add 10000 .destroy_service (m.last_source_id + 1)] ∧
    (connection_state_changed m c state).sources =
      m.sources ++ [⟨m.last_source_id + 1, .timeout 10000 .destroy_service⟩] ∧
    step (connection_state_changed m c state) (.dispatch (m.last_source_id + 1) none) =
      some ((destroy_service (connection_state_changed m c state)).1.drop_source
        (m.last_source_id + 1)) ∧
    (destroy_service (connection_state_changed m c state)).2 = false ∧
    (destroy_service (connection_state_changed m c state)).1.ref_count = 0 ∧
    calls_since (connection_state_changed m c state)
        (destroy_service (connection_state_changed m c state)).1 =
      .g_object_unref_service ::
        ((if m.priv.service_start_timeout ≠ 0 then
            [Call.g_source_remove m.priv.service_start_timeout] else []) ++
          [.g_signal_handler_disconnect m.priv.name_owner_id]) ∧
    (calls_since m2 (connection_state_changed m2 c state)).filter Call.is_timeout_add = [] ∧
    (connection_state_changed m2 c state).sources = m2.sources ∧
    (connection_state_changed m2 c state).priv.connections = m2.priv.connections.erase c := by
  have he : m.priv.connections.erase c = [] := by rw [hlist]; simp
  have h1 := state_changed_terminal_eq m c state hstate
  rw [if_pos he] at h1
  have h2 := state_changed_terminal_eq m2 c state hstate
  rw [if_neg (erase_ne_nil_of_other _ c hother)] at h2
  refine ⟨?_, ?_, ?_, ?_, rfl, ?_, ?_, ?_, ?_, ?_⟩
  · rw [h1]
  · exact calls_since_append m _ _ (by rw [h1])
  · rw [h1]
  · rw [h1]
    have hfind := find_attached m.sources (m.last_source_id + 1) (.timeout 10000 .destroy_service)
      (fun s hs => Nat.lt_succ_of_le (hsrc s hs))
    rw [step_dispatch_none _ _ (by simp [href]),
      dispatch_timeout_source _ _ _ _ _ _ hfind]
    rfl
  · exact destroy_last_reference_count _ (by rw [h1]; exact href)
  · apply calls_since_append
    rw [destroy_last_reference_trace _ (by rw [h1]; exact href), h1]
    simp
  · rw [calls_since_append m2 [.g_object_unref_connection c] _ (by rw [h2])]
    rfl
  · rw [h2]
  · rw [h2]


theorem last_connection_terminal_witness :
    (activate_all example_service [1] true).priv.connections = [1] ∧
    (activate_all example_service [1] true).ref_count = 1 ∧
    (activate_all example_service [1] true).sources_ok ∧
    (∃ d ∈ (activate_all example_service [1, 2] true).priv.connections, d ≠ 1) ∧
    calls_since (activate_all example_service [1] true)
        (connection_state_changed (activate_all example_service [1] true) 1 .disconnected) =
      [.g_object_unref_connection 1, .g_timeout_add 10000 .destroy_service 1] ∧
    (destroy_service
      (connection_state_changed (activate_all example_service [1] true) 1
        .disconnected)).1.ref_count = 0 ∧
    (connection_state_changed (activate_all example_service [1, 2] true) 1
      .disconnected).sources = [] :=
  have h := last_connection_terminal (activate_all example_service [1] true)
    (activate_all example_service [1, 2] true) 1 .disconnected (Or.inr rfl) (by decide)
    (by decide) (by decide) ⟨2, by decide, by decide⟩
  ⟨by decide, by decide, by decide, ⟨2, by decide, by decide⟩, h.2.1, h.2.2.2.2.2.1,
    h.2.2.2.2.2.2.2.2.1⟩

/-- C8 (evaluation at the failing input): on the example service connection 1 is activated
and reports disconnected (destroy timer 1 is scheduled), and connection 2 is activated
without that timer being cancelled.  The list is now exactly `[2]`.  Connection 2 reports
failed: the list is empty and one `destroy_service` timer with delay 10000 ms (source 2) is
scheduled.  No activate follows.  The older timer 1 fires first and releases the service
(reference count 0) while timer 2 is still pending; when timer 2 then fires, its callback
is handed the freed service: the run has no defined continuation. -/
theorem destroy_timer_fires_on_freed_service :
    (run example_service
        [.activate 1 true, .state_changed 1 .disconnected, .activate 2 true]).map
        (fun m => (m.priv.connections, m.ref_count, m.sources)) =
      some ([2], 1, [⟨1, .timeout 10000 .destroy_service⟩]) ∧
    (run example_service
        [.activate 1 true, .state_changed 1 .disconnected, .activate 2 true,
         .state_changed 2 .failed]).map
        (fun m => (m.priv.connections, m.ref_count, m.sources, m.trace.drop 6)) =
      some ([], 1, [⟨1, .timeout 10000 .destroy_service⟩, ⟨2, .timeout 10000 .destroy_service⟩],
            [.g_object_unref_connection 2, .g_timeout_add 10000 .destroy_service 2]) ∧
    (run example_service
        [.activate 1 true, .state_changed 1 .disconnected, .activate 2 true,
         .state_changed 2 .failed, .dispatch 1 none]).map
        (fun m => (m.priv.connections, m.ref_count, m.sources)) =
      some ([], 0, [⟨2, .timeout 10000 .destroy_service⟩]) ∧
    run example_service
        [.activate 1 true, .state_changed 1 .disconnected, .activate 2 true,
         .state_changed 2 .failed, .dispatch 1 none, .dispatch 2 none] = none := by
  decide

/-! ## Deferred destruction -/

theorem daemon_exec_connections (m : Machine) (spawned : Option Nat) :
    (nm_vpn_service_daemon_exec m spawned).1.priv.connections = m.priv.connections := by
  cases spawned <;>
    simp [nm_vpn_service_daemon_exec, nm_vpn_service_connections_stop, Machine.emit,
      g_timeout_add, g_child_watch_attach, g_source_attach]

theorem finalize_priv (m : Machine) : (finalize m).priv = m.priv := by
  unfold finalize
  by_cases ht : m.priv.service_start_timeout = 0
  · simp [ht, nm_vpn_service_connections_stop, Machine.emit]
  · simp [ht, nm_vpn_service_connections_stop, Machine.emit, g_source_remove,
      Machine.drop_source]

theorem unref_service_priv (m : Machine) : (g_object_unref_service m).priv = m.priv := by
  unfold g_object_unref_service
  by_cases h : m.ref_count ≤ 1
  · simp [Machine.emit, h, finalize_priv]
  · simp [Machine.emit, h]

theorem unref_service_ref_count (m : Machine) :
    (g_object_unref_service m).ref_count = m.ref_count - 1 := by
  unfold g_object_unref_service
  by_cases h : m.ref_count ≤ 1
  · simp [Machine.emit, h]
  · simp [Machine.emit, h]

theorem call_connections (f : GSourceFunc) (m : Machine) (spawned : Option Nat) :
    (f.call m spawned).1.priv.connections = m.priv.connections := by
  cases f
  · exact daemon_exec_connections m spawned
  · simp [GSourceFunc.call, timeout_eq]
  · simp [GSourceFunc.call, destroy_service, unref_service_priv]

theorem name_owner_changed_connections (m : Machine) (name : String) (old new : Option String) :
    (nm_vpn_service_name_owner_changed m name old new).priv.connections = m.priv.connections := by
  unfold nm_vpn_service_name_owner_changed
  by_cases hn : name = m.priv.dbus_service
  · by_cases ht : m.priv.service_start_timeout = 0 <;>
      cases owner_good old <;> cases owner_good new <;>
      simp [hn, ht, nm_vpn_service_connections_stop, Machine.emit, g_source_remove,
        Machine.drop_source]
  · simp [hn]

theorem watch_cb_connections (m : Machine) (pid : Nat) (status : Int) :
    (vpn_service_watch_cb m pid status).priv.connections = m.priv.connections := by
  obtain ⟨log, _, heq⟩ := watch_cb_shape m pid status
  rw [heq]

theorem state_changed_connections (m : Machine) (c : Conn) (state : NMVPNConnectionState) :
    (connection_state_changed m c state).priv.connections =
      if state = .failed ∨ state = .disconnected then m.priv.connections.erase c
      else m.priv.connections := by
  cases state
  · simp [connection_state_changed]
  · rw [state_changed_terminal_eq m c _ (Or.inl rfl)]
    by_cases he : m.priv.connections.erase c = [] <;> simp [he]
  · rw [state_changed_terminal_eq m c _ (Or.inr rfl)]
    by_cases he : m.priv.connections.erase c = [] <;> simp [he]
  · simp [connection_state_changed]

theorem dispatch_connections (m : Machine) (id : Nat) (spawned : Option Nat) (m1 : Machine)
    (h : dispatch m id spawned = some m1) : m1.priv.connections = m.priv.connections := by
  unfold dispatch at h
  split at h
  · simp only [Option.some.injEq] at h
    rw [← h]
    split
    · exact call_connections _ m spawned
    · exact call_connections _ m spawned
  · simp only [Option.some.injEq] at h
    rw [← h]
    split
    · exact call_connections _ m spawned
    · exact call_connections _ m spawned
  · simp at h

theorem child_exited_connections (m : Machine) (id : Nat) (status : Int) (m1 : Machine)
    (h : child_exited m id status = some m1) : m1.priv.connections = m.priv.connections := by
  unfold child_exited at h
  split at h
  · simp only [Option.some.injEq] at h
    rw [← h]
    exact watch_cb_connections m _ status
  · simp at h

theorem step_keeps_list_empty (m : Machine) (e : Event) (m1 : Machine)
    (h : step m e = some m1) (he : e.is_activate = false) (hc : m.priv.connections = []) :
    m1.priv.connections = [] := by
  unfold step at h
  split at h
  · simp at h
  · cases e with
    | activate c o => simp [Event.is_activate] at he
    | state_changed c state =>
      simp only [Option.some.injEq] at h
      rw [← h, state_changed_connections, hc]
      simp
    | name_owner_changed name old new =>
      simp only [Option.some.injEq] at h
      rw [← h, name_owner_changed_connections, hc]
    | dispatch id spawned =>
      simp only at h
      split at h
      · simp at h
      · rw [dispatch_connections m id spawned m1 h, hc]
    | child_exited id status =>
      simp only at h
      rw [child_exited_connections m id status m1 h, hc]

theorem run_keeps_list_empty (es : List Event) : ∀ (m m1 : Machine),
    run m es = some m1 → (∀ e ∈ es, e.is_activate = false) → m.priv.connections = [] →
    m1.priv.connections = [] := by
  induction es with
  | nil =>
    intro m m1 h _ hc
    simp only [run, Option.some.injEq] at h
    rw [← h]; exact hc
  | cons e es ih =>
    intro m m1 h hq hc
    simp only [run] at h
    cases hs : step m e with
    | none => rw [hs] at h; simp at h
    | some m2 =>
      rw [hs] at h
      exact ih m2 m1 h (fun e1 h1 => hq e1 (List.mem_cons_of_mem _ h1))
        (step_keeps_list_empty m e m2 hs (hq e (List.mem_cons_self _ _)) hc)

theorem activate_keeps_sources (m : Machine) (c : Conn) (has_owner : Bool) (s : GSource)
    (h : s ∈ m.sources) : s ∈ (nm_vpn_service_activate m c has_owner).2.sources := by
  unfold nm_vpn_service_activate
  cases has_owner
  · by_cases ht : m.priv.service_start_timeout = 0
    · simp [ht, Machine.emit, g_idle_add, g_source_attach, h]
    · simp [ht, Machine.emit, h]
  · simp [Machine.emit, h]

theorem activate_connections (m : Machine) (c : Conn) (has_owner : Bool) :
    (nm_vpn_service_activate m c has_owner).2.priv.connections = c :: m.priv.connections := by
  unfold nm_vpn_service_activate
  cases has_owner
  · by_cases ht : m.priv.service_start_timeout = 0
    · simp [ht, Machine.emit, g_idle_add, g_source_attach]
    · simp [ht, Machine.emit]
  · simp [Machine.emit]

/-- C9 (evaluation at the failing input): on the freshly created example service,
connection 1 is activated and reports disconnected, which empties the list and schedules
the destroy timer (source 1); connection 2 is then activated, and the timer is still
pending with the list `[2]`.  When the timer fires, `destroy_service` releases the service
(reference count 0) although the list is `[2]` and an activate has attached a connection
since the timer was scheduled; `finalize` sends connection 2 disconnect.  When connection 2
then reports disconnected, its handler is handed the freed service: the run has no defined
continuation. -/
theorem destroy_with_attached_connection :
    (run example_service [.activate 1 true, .state_changed 1 .disconnected]).map
        (fun m => (m.priv.connections, m.sources)) =
      some ([], [⟨1, .timeout 10000 .destroy_service⟩]) ∧
    (run example_service
        [.activate 1 true, .state_changed 1 .disconnected, .activate 2 true]).map
        (fun m => (m.priv.connections, m.sources)) =
      some ([2], [⟨1, .timeout 10000 .destroy_service⟩]) ∧
    (run example_service
        [.activate 1 true, .state_changed 1 .disconnected, .activate 2 true,
         .dispatch 1 none]).map
        (fun m => (m.ref_count, m.priv.connections, m.trace.drop 6)) =
      some (0, [2], [.g_object_unref_service, .nm_vpn_connection_disconnect 2,
                     .g_signal_handler_disconnect 1]) ∧
    run example_service
        [.activate 1 true, .state_changed 1 .disconnected, .activate 2 true,
         .dispatch 1 none, .state_changed 2 .disconnected] = none := by
  decide

/-- What does hold of the destroy timer: whenever `connection_state_changed` schedules it,
the connection list is empty at that moment, and it is still empty in every state reached
from there by events that include no `nm_vpn_service_activate` call; `destroy_service`
returns FALSE and drops one reference whatever the list holds.  An activate call in between
attaches its connection and removes no pending source (the destroy timer stays). -/
theorem destroy_timer_scheduled_when_idle (m : Machine) (c : Conn)
    (state : NMVPNConnectionState) (es : List Event) (m1 : Machine)
    (hsched : (calls_since m (connection_state_changed m c state)).filter
      Call.is_timeout_add ≠ [])
    (hquiet : ∀ e ∈ es, e.is_activate = false)
    (hrun : run (connection_state_changed m c state) es = some m1) :
    (connection_state_changed m c state).priv.connections = [] ∧
    m1.priv.connections = [] ∧
    (destroy_service m1).2 = false ∧
    (destroy_service m1).1.ref_count = m1.ref_count - 1 ∧
    (∀ c1 has_owner,
      (nm_vpn_service_activate m1 c1 has_owner).2.priv.connections = [c1] ∧
      (∀ s ∈ m1.sources, s ∈ (nm_vpn_service_activate m1 c1 has_owner).2.sources) ∧
      (destroy_service (nm_vpn_service_activate m1 c1 has_owner).2).1.ref_count =
        m1.ref_count - 1) := by
  have h0 : (connection_state_changed m c state).priv.connections = [] := by
    by_cases hstate : state = .failed ∨ state = .disconnected
    · have heq := state_changed_terminal_eq m c state hstate
      by_cases he : m.priv.connections.erase c = []
      · rw [if_pos he] at heq
        rw [heq]
      · rw [if_neg he] at heq
        exfalso
        apply hsched
        rw [calls_since_append m [.g_object_unref_connection c] _ (by rw [heq])]
        rfl
    · exfalso
      apply hsched
      have : connection_state_changed m c state = m := by
        cases state <;> simp_all [connection_state_changed]
      rw [this]
      simp [calls_since]
  have h1 := run_keeps_list_empty es _ m1 hrun hquiet h0
  refine ⟨h0, h1, rfl, ?_, fun c1 has_owner => ⟨?_, ?_, ?_⟩⟩
  · simp [destroy_service, unref_service_ref_count]
  · rw [activate_connections, h1]
  · exact fun s hs => activate_keeps_sources m1 c1 has_owner s hs
  · simp only [destroy_service, unref_service_ref_count]
    unfold nm_vpn_service_activate
    cases has_owner
    · by_cases ht : m1.priv.service_start_timeout = 0
      · simp [ht, Machine.emit, g_idle_add, g_source_attach]
      · simp [ht, Machine.emit]
    · simp [Machine.emit]


theorem destroy_timer_scheduled_when_idle_witness :
    (calls_since (activate_all example_service [1] true)
      (connection_state_changed (activate_all example_service [1] true) 1
        .disconnected)).filter Call.is_timeout_add ≠ [] ∧
    (nm_vpn_service_name_owner_changed
      (connection_state_changed (activate_all example_service [1] true) 1 .disconnected)
      "org.example.vpn.openvpn" (some "1.23") none).priv.connections = [] :=
  ⟨by decide,
    (destroy_timer_scheduled_when_idle (activate_all example_service [1] true) 1 .disconnected
      [.name_owner_changed "org.example.vpn.openvpn" (some "1.23") none]
      (nm_vpn_service_name_owner_changed
        (connection_state_changed (activate_all example_service [1] true) 1 .disconnected)
        "org.example.vpn.openvpn" (some "1.23") none)
      (by decide) (by decide) (by decide)).2.1⟩

/-! ## Activation while the bus name is not owned -/

theorem activate_unowned_idle (m : Machine) (c : Conn)
    (ht : m.priv.service_start_timeout = 0) :
    (nm_vpn_service_activate m c false).2 =
      { m with priv := { m.priv with connections := c :: m.priv.connections },
               sources := m.sources ++
                 [⟨m.last_source_id + 1, .idle .nm_vpn_service_daemon_exec⟩],
               last_source_id := m.last_source_id + 1,
               trace := m.trace ++ [.g_signal_connect_state_changed c, .nm_info .exec_scheduled,
                 .g_idle_add .nm_vpn_service_daemon_exec (m.last_source_id + 1)] } := by
  simp [nm_vpn_service_activate, Machine.emit, g_idle_add, g_source_attach, ht]

theorem daemon_exec_always_spawns (m : Machine) (spawned : Option Nat) :
    ((nm_vpn_service_daemon_exec m spawned).1.trace.drop m.trace.length).filter Call.is_spawn =
      [.g_spawn_async m.priv.program spawned] := by
  cases spawned with
  | none =>
    rw [daemon_exec_failed_eq]
    have : ∀ l : List Conn, (l.map Call.nm_vpn_connection_fail).filter Call.is_spawn = [] := by
      intro l
      induction l with
      | nil => rfl
      | cons c l ih => simp [List.filter_cons, Call.is_spawn, ih]
    simp [List.filter_cons, Call.is_spawn, this]
  | some pid =>
    simp [nm_vpn_service_daemon_exec, Machine.emit, g_timeout_add, g_child_watch_attach,
      g_source_attach, List.filter_cons, Call.is_spawn]

theorem activate_all_unowned_idles (cs : List Conn) : ∀ m : Machine,
    m.priv.service_start_timeout = 0 →
    ∃ calls : List Call, (activate_all m cs false).trace = m.trace ++ calls ∧
      (calls.filter Call.is_idle_add).length = cs.length ∧
      (activate_all m cs false).priv.service_start_timeout = 0 := by
  induction cs with
  | nil => intro m ht; exact ⟨[], by simp [activate_all], rfl, ht⟩
  | cons c cs ih =>
    intro m ht
    have h1 := activate_unowned_idle m c ht
    obtain ⟨calls, htr, hlen, ht2⟩ := ih (nm_vpn_service_activate m c false).2 (by rw [h1]; exact ht)
    refine ⟨[.g_signal_connect_state_changed c, .nm_info .exec_scheduled,
      .g_idle_add .nm_vpn_service_daemon_exec (m.last_source_id + 1)] ++ calls, ?_, ?_, ?_⟩
    · simp only [activate_all, List.foldl_cons] at htr ⊢
      rw [htr, h1]
      simp
    · simp [List.filter_cons, Call.is_idle_add, hlen]
    · simpa [activate_all] using ht2

/-- C2 (evaluation at the failing input): on the freshly created example service (no daemon,
no timer), two activations arrive while the bus name is not owned and before any idle
callback has run.  Each of them schedules its own deferred launch (idle sources 1 and 2).
Once both have run, `g_spawn_async` has been called twice: two daemons (pids 100 and 101)
were spawned, the stored pid is the second one, and two startup timers (sources 4 and 6)
are pending. -/
theorem two_activations_two_spawns :
    (run example_service [.activate 1 false, .activate 2 false]).map
        (fun m => (m.priv.connections, m.priv.pid, m.priv.service_start_timeout, m.sources)) =
      some ([2, 1], 0, 0, [⟨1, .idle .nm_vpn_service_daemon_exec⟩,
                            ⟨2, .idle .nm_vpn_service_daemon_exec⟩]) ∧
    (run example_service
        [.activate 1 false, .activate 2 false, .dispatch 1 (some 100),
         .dispatch 2 (some 101)]).map
        (fun m => (m.trace.filter Call.is_spawn, m.priv.pid, m.sources)) =
      some ([.g_spawn_async "/usr/libexec/nm-openvpn-service" (some 100),
             .g_spawn_async "/usr/libexec/nm-openvpn-service" (some 101)], 101,
            [⟨3, .child_watch 100⟩, ⟨4, .timeout 2000 .nm_vpn_service_timeout⟩,
             ⟨5, .child_watch 101⟩, ⟨6, .timeout 2000 .nm_vpn_service_timeout⟩]) := by
  decide

/-! ## The bus name appears -/

theorem name_owner_appeared (m : Machine) (old new : Option String)
    (ht : m.priv.service_start_timeout ≠ 0)
    (hold : owner_good old = false) (hnew : owner_good new = true) :
    nm_vpn_service_name_owner_changed m m.priv.dbus_service old new =
      { m with priv := { m.priv with service_start_timeout := 0 },
               sources := m.sources.filter (fun s => s.id != m.priv.service_start_timeout),
               trace := m.trace ++ (.g_source_remove m.priv.service_start_timeout ::
                 .nm_info .just_appeared ::
                 m.priv.connections.map Call.nm_vpn_connection_activate) } := by
  simp [nm_vpn_service_name_owner_changed, ht, hold, hnew, Machine.emit, g_source_remove,
    Machine.drop_source]

/-- C3 (evaluation at the failing input): on the freshly created example service, two
activations arrive while the bus name is not owned and both deferred launches run; the
second launch overwrites the timer handle (6) of the first (4), so two startup timers are
pending.  The name-owner-changed event "absent to present" for the service's bus name
removes timer 6, sets the handle to 0 and sends activate to connections 2 and 1; timer 4,
started before the event, is still pending.  When its deadline passes,
`nm_vpn_service_timeout` runs and sends fail to connections 2 and 1. -/
theorem lost_timer_fires_after_appearance :
    (run example_service
        [.activate 1 false, .activate 2 false, .dispatch 1 (some 100),
         .dispatch 2 (some 101)]).map
        (fun m => (m.priv.service_start_timeout, m.sources)) =
      some (6, [⟨3, .child_watch 100⟩, ⟨4, .timeout 2000 .nm_vpn_service_timeout⟩,
                ⟨5, .child_watch 101⟩, ⟨6, .timeout 2000 .nm_vpn_service_timeout⟩]) ∧
    (run example_service
        [.activate 1 false, .activate 2 false, .dispatch 1 (some 100), .dispatch 2 (some 101),
         .name_owner_changed "org.example.vpn.openvpn" none (some "1.23")]).map
        (fun m => (m.priv.service_start_timeout, m.sources, m.trace.drop 14)) =
      some (0, [⟨3, .child_watch 100⟩, ⟨4, .timeout 2000 .nm_vpn_service_timeout⟩,
                ⟨5, .child_watch 101⟩],
            [.g_source_remove 6, .nm_info .just_appeared,
             .nm_vpn_connection_activate 2, .nm_vpn_connection_activate 1]) ∧
    (run example_service
        [.activate 1 false, .activate 2 false, .dispatch 1 (some 100), .dispatch 2 (some 101),
         .name_owner_changed "org.example.vpn.openvpn" none (some "1.23"),
         .dispatch 4 none]).map
        (fun m => (m.sources, m.trace.drop 18)) =
      some ([⟨3, .child_watch 100⟩, ⟨5, .child_watch 101⟩],
            [.nm_info .did_not_start_in_time,
             .nm_vpn_connection_fail 2, .nm_vpn_connection_fail 1]) := by
  decide

/-! ## The startup timer fires -/

theorem activate_timer (m : Machine) (c : Conn) (has_owner : Bool) :
    (nm_vpn_service_activate m c has_owner).2.priv.service_start_timeout =
      m.priv.service_start_timeout := by
  unfold nm_vpn_service_activate
  cases has_owner
  · by_cases ht : m.priv.service_start_timeout = 0
    · simp [ht, Machine.emit, g_idle_add, g_source_attach]
    · simp [ht, Machine.emit]
  · simp [Machine.emit]

theorem state_changed_timer (m : Machine) (c : Conn) (state : NMVPNConnectionState) :
    (connection_state_changed m c state).priv.service_start_timeout =
      m.priv.service_start_timeout := by
  cases state
  · simp [connection_state_changed]
  · rw [state_changed_terminal_eq m c _ (Or.inl rfl)]
    by_cases he : m.priv.connections.erase c = [] <;> simp [he]
  · rw [state_changed_terminal_eq m c _ (Or.inr rfl)]
    by_cases he : m.priv.connections.erase c = [] <;> simp [he]
  · simp [connection_state_changed]

theorem name_owner_changed_timer_zero (m : Machine) (name : String) (old new : Option String)
    (h : m.priv.service_start_timeout = 0) :
    (nm_vpn_service_name_owner_changed m name old new).priv.service_start_timeout = 0 := by
  unfold nm_vpn_service_name_owner_changed
  by_cases hn : name = m.priv.dbus_service
  · cases owner_good old <;> cases owner_good new <;>
      simp [hn, h, nm_vpn_service_connections_stop, Machine.emit]
  · simp [hn, h]

theorem call_none_timer_zero (f : GSourceFunc) (m : Machine)
    (h : m.priv.service_start_timeout = 0) :
    (f.call m none).1.priv.service_start_timeout = 0 := by
  cases f
  · simp only [GSourceFunc.call]
    rw [daemon_exec_failed_eq]
    exact h
  · simp [GSourceFunc.call, timeout_eq]
  · simp [GSourceFunc.call, destroy_service, unref_service_priv, h]

theorem dispatch_none_timer_zero (m : Machine) (id : Nat) (m1 : Machine)
    (hd : dispatch m id none = some m1) (h : m.priv.service_start_timeout = 0) :
    m1.priv.service_start_timeout = 0 := by
  unfold dispatch at hd
  split at hd
  · simp only [Option.some.injEq] at hd
    rw [← hd]
    split
    · exact call_none_timer_zero _ m h
    · exact call_none_timer_zero _ m h
  · simp only [Option.some.injEq] at hd
    rw [← hd]
    split
    · exact call_none_timer_zero _ m h
    · exact call_none_timer_zero _ m h
  · simp at hd

theorem child_exited_timer (m : Machine) (id : Nat) (status : Int) (m1 : Machine)
    (h : child_exited m id status = some m1) :
    m1.priv.service_start_timeout = m.priv.service_start_timeout := by
  unfold child_exited at h
  split at h
  · simp only [Option.some.injEq] at h
    rw [← h]
    obtain ⟨log, _, heq⟩ := watch_cb_shape m ‹Nat› status
    simp only [Machine.drop_source]
    rw [heq]
  · simp at h

theorem step_keeps_timer_zero (m : Machine) (e : Event) (m1 : Machine)
    (h : step m e = some m1) (he : e.launches = false)
    (ht : m.priv.service_start_timeout = 0) : m1.priv.service_start_timeout = 0 := by
  unfold step at h
  split at h
  · simp at h
  · cases e with
    | activate c o =>
      simp only [Option.some.injEq] at h
      rw [← h, activate_timer, ht]
    | state_changed c state =>
      simp only [Option.some.injEq] at h
      rw [← h, state_changed_timer, ht]
    | name_owner_changed name old new =>
      simp only [Option.some.injEq] at h
      rw [← h]
      exact name_owner_changed_timer_zero m name old new ht
    | dispatch id spawned =>
      cases spawned with
      | some pid => simp [Event.launches] at he
      | none =>
        simp only at h
        split at h
        · simp at h
        · exact dispatch_none_timer_zero m id m1 h ht
    | child_exited id status =>
      simp only at h
      rw [child_exited_timer m id status m1 h, ht]

theorem run_keeps_timer_zero (es : List Event) : ∀ (m m1 : Machine),
    run m es = some m1 → (∀ e ∈ es, e.launches = false) → m.priv.service_start_timeout = 0 →
    m1.priv.service_start_timeout = 0 := by
  induction es with
  | nil =>
    intro m m1 h _ hc
    simp only [run, Option.some.injEq] at h
    rw [← h]; exact hc
  | cons e es ih =>
    intro m m1 h hq hc
    simp only [run] at h
    cases hs : step m e with
    | none => rw [hs] at h; simp at h
    | some m2 =>
      rw [hs] at h
      exact ih m2 m1 h (fun e1 h1 => hq e1 (List.mem_cons_of_mem _ h1))
        (step_keeps_timer_zero m e m2 hs (hq e (List.mem_cons_self _ _)) hc)

/-- C4: when the startup timer fires, `nm_vpn_service_timeout` returns FALSE (the source is
not rescheduled), sets the timer handle to 0, logs and then sends fail to each entry of the
connection list in list order, so every connection gets fail once per entry (exactly once
when attached once); it adds no source and leaves the list alone.  A name-owner-changed
event for the service's bus name, whatever the old and new owners, makes no
`g_source_remove` call when it is handled on the resulting state, and also when it is
handled on any state `m1` reached from there by events among which no new daemon is
launched. -/
theorem startup_timeout_fires (m : Machine) (old new : Option String) (es : List Event)
    (m1 : Machine) (hquiet : ∀ e ∈ es, e.launches = false)
    (hrun : run (nm_vpn_service_timeout m).1 es = some m1) :
    (nm_vpn_service_timeout m).2 = false ∧
    (nm_vpn_service_timeout m).1.priv.service_start_timeout = 0 ∧
    calls_since m (nm_vpn_service_timeout m).1 =
      .nm_info .did_not_start_in_time :: m.priv.connections.map Call.nm_vpn_connection_fail ∧
    commands (calls_since m (nm_vpn_service_timeout m).1) =
      m.priv.connections.map Call.nm_vpn_connection_fail ∧
    (∀ c, (calls_since m (nm_vpn_service_timeout m).1).count (.nm_vpn_connection_fail c) =
      m.priv.connections.count c) ∧
    (nm_vpn_service_timeout m).1.priv.connections = m.priv.connections ∧
    (nm_vpn_service_timeout m).1.sources = m.sources ∧
    (calls_since (nm_vpn_service_timeout m).1
        (nm_vpn_service_name_owner_changed (nm_vpn_service_timeout m).1
          (nm_vpn_service_timeout m).1.priv.dbus_service old new)).filter
      Call.is_source_remove = [] ∧
    (calls_since m1
        (nm_vpn_service_name_owner_changed m1 m1.priv.dbus_service old new)).filter
      Call.is_source_remove = [] := by
  have hs : calls_since m (nm_vpn_service_timeout m).1 =
      .nm_info .did_not_start_in_time :: m.priv.connections.map Call.nm_vpn_connection_fail :=
    calls_since_append m _ _ (by rw [timeout_eq])
  have h0 : (nm_vpn_service_timeout m).1.priv.service_start_timeout = 0 := by rw [timeout_eq]
  refine ⟨rfl, h0, hs, ?_, ?_, ?_, ?_, ?_, ?_⟩
  · rw [hs]
    have := commands_map_fail m.priv.connections
    simp only [commands] at this ⊢
    simp [List.filter_cons, Call.is_command, this]
  · intro c
    rw [hs, List.count_cons, count_map_fail]
    simp
  · rw [timeout_eq]
  · rw [timeout_eq]
  · exact name_owner_changed_no_timer _ old new h0
  · exact name_owner_changed_no_timer m1 old new (run_keeps_timer_zero es _ m1 hrun hquiet h0)


theorem startup_timeout_fires_witness :
    (∀ e ∈ [Event.activate 2 false], e.launches = false) ∧
    run (nm_vpn_service_timeout
        (nm_vpn_service_daemon_exec (activate_all example_service [1] false) (some 100)).1).1
      [.activate 2 false] =
      some (nm_vpn_service_activate (nm_vpn_service_timeout
        (nm_vpn_service_daemon_exec (activate_all example_service [1] false) (some 100)).1).1
        2 false).2 ∧
    commands (calls_since
      (nm_vpn_service_daemon_exec (activate_all example_service [1] false) (some 100)).1
      (nm_vpn_service_timeout
        (nm_vpn_service_daemon_exec (activate_all example_service [1] false) (some 100)).1).1) =
      [.nm_vpn_connection_fail 1] :=
  ⟨by decide, by decide,
    (startup_timeout_fires
      (nm_vpn_service_daemon_exec (activate_all example_service [1] false) (some 100)).1
      none (some "1.23") [.activate 2 false]
      (nm_vpn_service_activate (nm_vpn_service_timeout
        (nm_vpn_service_daemon_exec (activate_all example_service [1] false) (some 100)).1).1
        2 false).2
      (by decide) (by decide)).2.2.2.1⟩


/-! ## Membership of a connection in the list -/

theorem state_changed_other_eq (m : Machine) (c : Conn) (state : NMVPNConnectionState)
    (h : state ≠ .failed ∧ state ≠ .disconnected) : connection_state_changed m c state = m := by
  cases state <;> simp_all [connection_state_changed]

theorem filter_erase_ne (l : List Conn) (c : Conn) :
    (l.erase c).filter (fun d => d != c) = l.filter (fun d => d != c) := by
  induction l with
  | nil => rfl
  | cons a l ih =>
    by_cases h : a = c
    · subst h
      simp
    · have hb : ¬ (a == c) = true := by simpa using h
      rw [List.erase_cons_tail hb]
      simp [List.filter_cons, h, ih]

/-- C11: for every state `m0`, every new connection `c0` and either answer of the owner
query, `nm_vpn_service_activate` returns `c0` and `c0` is a member of the connection list
afterwards (it is the new head, in front of the old list).  A state-change report with a
state other than failed or disconnected returns the machine state unchanged, for every
state and connection (private data, sources and trace: nothing scheduled, nothing called).
For an attached connection `c`, a failed or disconnected report removes the first entry `c`
from the list, so the list is one shorter, `c` has one entry less (it is gone unless it was
attached more than once), and the other connections keep their entries and their relative
order. -/
theorem connection_membership (m : Machine) (c : Conn)
    (state other : NMVPNConnectionState)
    (hstate : state = .failed ∨ state = .disconnected)
    (hother : other ≠ .failed ∧ other ≠ .disconnected)
    (hmem : c ∈ m.priv.connections) :
    (∀ (m0 : Machine) (c0 : Conn) (has_owner : Bool),
      (nm_vpn_service_activate m0 c0 has_owner).1 = c0 ∧
      c0 ∈ (nm_vpn_service_activate m0 c0 has_owner).2.priv.connections ∧
      (nm_vpn_service_activate m0 c0 has_owner).2.priv.connections =
        c0 :: m0.priv.connections) ∧
    (∀ (m0 : Machine) (c0 : Conn), connection_state_changed m0 c0 other = m0) ∧
    (connection_state_changed m c state).priv.connections = m.priv.connections.erase c ∧
    (connection_state_changed m c state).priv.connections.count c =
      m.priv.connections.count c - 1 ∧
    (connection_state_changed m c state).priv.connections.length + 1 =
      m.priv.connections.length ∧
    (c ∈ (connection_state_changed m c state).priv.connections ↔
      2 ≤ m.priv.connections.count c) ∧
    (connection_state_changed m c state).priv.connections.filter (fun d => d != c) =
      m.priv.connections.filter (fun d => d != c) ∧
    (connection_state_changed m c state).priv.connections.Sublist m.priv.connections ∧
    (∀ d, d ≠ c → (connection_state_changed m c state).priv.connections.count d =
      m.priv.connections.count d) := by
  have he : (connection_state_changed m c state).priv.connections =
      m.priv.connections.erase c := by
    rw [state_changed_connections, if_pos hstate]
  have hc : (m.priv.connections.erase c).count c = m.priv.connections.count c - 1 := by
    simp [List.count_erase_self]
  refine ⟨fun m0 c0 has_owner => ⟨rfl, ?_, activate_connections m0 c0 has_owner⟩,
    fun m0 c0 => state_changed_other_eq m0 c0 other hother, he, ?_, ?_, ?_, ?_, ?_, ?_⟩
  · rw [activate_connections]; simp
  · rw [he, hc]
  · rw [he, List.length_erase_of_mem hmem]
    have := List.length_pos_of_mem hmem
    omega
  · rw [he, ← List.count_pos_iff, hc]
    omega
  · rw [he, filter_erase_ne]
  · rw [he]; exact List.erase_sublist c _
  · intro d hd
    rw [he, List.count_erase_of_ne hd]

theorem connection_membership_witness :
    (2 : Conn) ∈ (activate_all example_service [1, 2, 3] true).priv.connections ∧
    (2 : Conn) ∉ example_service.priv.connections ∧
    (nm_vpn_service_activate example_service 2 false).2.priv.connections = [2] ∧
    (nm_vpn_service_activate (activate_all example_service [1] true) 2 false).2.priv.connections
      = [2, 1] ∧
    connection_state_changed (activate_all example_service [1, 2, 3] true) 2 .activated =
      activate_all example_service [1, 2, 3] true ∧
    (connection_state_changed (activate_all example_service [1, 2, 3] true) 2
      .failed).priv.connections = [3, 1] :=
  have h := connection_membership (activate_all example_service [1, 2, 3] true) 2 .failed
    .activated (Or.inl rfl) (by decide) (by decide)
  ⟨by decide, by decide, (h.1 example_service 2 false).2.2,
    (h.1 (activate_all example_service [1] true) 2 false).2.2,
    h.2.1 (activate_all example_service [1, 2, 3] true) 2, h.2.2.1⟩

/-! ## Owner changes that do not concern the service -/

/-- C13: a name-owner-changed event whose name differs from the service's bus name returns
the machine state unchanged, whatever the old and new owners: connection list, pid and
timer handle are as before, no source is removed and no call is made. -/
theorem name_owner_changed_other_name (m : Machine) (name : String) (old new : Option String)
    (hname : name ≠ m.priv.dbus_service) :
    nm_vpn_service_name_owner_changed m name old new = m ∧
    calls_since m (nm_vpn_service_name_owner_changed m name old new) = [] := by
  have h : nm_vpn_service_name_owner_changed m name old new = m := by
    simp [nm_vpn_service_name_owner_changed, hname]
  refine ⟨h, ?_⟩
  rw [h]
  simp [calls_since]

theorem name_owner_changed_other_name_witness :
    "org.example.vpn.pptp" ≠ example_service.priv.dbus_service ∧
    nm_vpn_service_name_owner_changed (activate_all example_service [1] false)
      "org.example.vpn.pptp" none (some "1.23") = activate_all example_service [1] false :=
  ⟨by decide,
    (name_owner_changed_other_name (activate_all example_service [1] false)
      "org.example.vpn.pptp" none (some "1.23") (by decide)).1⟩

/-- C12 (counterexample): on the example service a connection is activated while the bus
name is not owned; the name then gets owner "1.23" before the deferred launch runs, and
the launch starts the startup timer (source 3, stored in the handle).  The event "owner
1.23 replaced by owner 1.24" for the service's bus name then calls `g_source_remove (3)`
and sets the handle to 0: the state is not unchanged. -/
theorem owner_replaced_cancels_timer :
    (run example_service
        [.activate 1 false, .name_owner_changed "org.example.vpn.openvpn" none (some "1.23"),
         .dispatch 1 (some 100)]).map
        (fun m => (m.priv.service_start_timeout, m.sources)) =
      some (3, [⟨2, .child_watch 100⟩, ⟨3, .timeout 2000 .nm_vpn_service_timeout⟩]) ∧
    (run example_service
        [.activate 1 false, .name_owner_changed "org.example.vpn.openvpn" none (some "1.23"),
         .dispatch 1 (some 100),
         .name_owner_changed "org.example.vpn.openvpn" (some "1.23") (some "1.24")]).map
        (fun m => (m.priv.service_start_timeout, m.sources, m.trace.drop 9)) =
      some (0, [⟨2, .child_watch 100⟩], [.g_source_remove 3]) := by
  decide

/-- C12 (amended): a name-owner-changed event for the service's own bus name whose presence
does not change (old and new owner both present or both absent) sends no command and
leaves the connection list and the pid unchanged; when no startup timer is pending it
returns the machine state unchanged; when one is pending it cancels it with
`g_source_remove`, its only call, and sets the handle to 0. -/
theorem owner_presence_unchanged (m : Machine) (old new : Option String)
    (hsame : owner_good old = owner_good new) :
    nm_vpn_service_name_owner_changed m m.priv.dbus_service old new =
      (if m.priv.service_start_timeout ≠ 0 then
        { m with priv := { m.priv with service_start_timeout := 0 },
                 sources := m.sources.filter (fun s => s.id != m.priv.service_start_timeout),
                 trace := m.trace ++ [.g_source_remove m.priv.service_start_timeout] }
       else m) ∧
    commands (calls_since m
      (nm_vpn_service_name_owner_changed m m.priv.dbus_service old new)) = [] ∧
    calls_since m (nm_vpn_service_name_owner_changed m m.priv.dbus_service old new) =
      (if m.priv.service_start_timeout ≠ 0 then
        [Call.g_source_remove m.priv.service_start_timeout] else []) ∧
    (nm_vpn_service_name_owner_changed m m.priv.dbus_service old new).priv.connections =
      m.priv.connections ∧
    (nm_vpn_service_name_owner_changed m m.priv.dbus_service old new).priv.pid = m.priv.pid ∧
    (nm_vpn_service_name_owner_changed m m.priv.dbus_service old new).priv.service_start_timeout
      = 0 := by
  have h : nm_vpn_service_name_owner_changed m m.priv.dbus_service old new =
      (if m.priv.service_start_timeout ≠ 0 then
        { m with priv := { m.priv with service_start_timeout := 0 },
                 sources := m.sources.filter (fun s => s.id != m.priv.service_start_timeout),
                 trace := m.trace ++ [.g_source_remove m.priv.service_start_timeout] }
       else m) := by
    unfold nm_vpn_service_name_owner_changed
    by_cases ht : m.priv.service_start_timeout = 0 <;>
      cases hn : owner_good new <;>
      simp [ht, hsame, hn, g_source_remove, Machine.drop_source, Machine.emit]
  refine ⟨h, ?_, ?_, ?_, ?_, ?_⟩
  all_goals rw [h]
  all_goals by_cases ht : m.priv.service_start_timeout = 0
  all_goals simp [ht, calls_since, commands, Call.is_command]


theorem owner_presence_unchanged_witness :
    owner_good (some "1.23") = owner_good (some "1.24") ∧
    calls_since
      (nm_vpn_service_daemon_exec (activate_all example_service [1] false) (some 100)).1
      (nm_vpn_service_name_owner_changed
        (nm_vpn_service_daemon_exec (activate_all example_service [1] false) (some 100)).1
        "org.example.vpn.openvpn" (some "1.23") (some "1.24")) =
      [.g_source_remove 3] :=
  ⟨by decide,
    (owner_presence_unchanged
      (nm_vpn_service_daemon_exec (activate_all example_service [1] false) (some 100)).1
      (some "1.23") (some "1.24") (by decide)).2.2.1⟩


/-! ## The startup timer and the stored pid -/

theorem activate_pid (m : Machine) (c : Conn) (has_owner : Bool) :
    (nm_vpn_service_activate m c has_owner).2.priv.pid = m.priv.pid := by
  unfold nm_vpn_service_activate
  cases has_owner
  · by_cases ht : m.priv.service_start_timeout = 0
    · simp [ht, Machine.emit, g_idle_add, g_source_attach]
    · simp [ht, Machine.emit]
  · simp [Machine.emit]

theorem state_changed_pid (m : Machine) (c : Conn) (state : NMVPNConnectionState) :
    (connection_state_changed m c state).priv.pid = m.priv.pid := by
  cases state
  · simp [connection_state_changed]
  · rw [state_changed_terminal_eq m c _ (Or.inl rfl)]
    by_cases he : m.priv.connections.erase c = [] <;> simp [he]
  · rw [state_changed_terminal_eq m c _ (Or.inr rfl)]
    by_cases he : m.priv.connections.erase c = [] <;> simp [he]
  · simp [connection_state_changed]

theorem name_owner_changed_pid_timer (m : Machine) (name : String) (old new : Option String) :
    (nm_vpn_service_name_owner_changed m name old new).priv.pid = m.priv.pid ∧
    ((nm_vpn_service_name_owner_changed m name old new).priv.service_start_timeout = 0 ∨
     (nm_vpn_service_name_owner_changed m name old new).priv.service_start_timeout =
       m.priv.service_start_timeout) := by
  unfold nm_vpn_service_name_owner_changed
  by_cases hn : name = m.priv.dbus_service
  · by_cases ht : m.priv.service_start_timeout = 0 <;>
      cases owner_good old <;> cases owner_good new <;>
      simp [hn, ht, nm_vpn_service_connections_stop, Machine.emit, g_source_remove,
        Machine.drop_source]
  · simp [hn]

theorem call_keeps_timer_pid (f : GSourceFunc) (m : Machine) (spawned : Option Nat)
    (hs : spawned ≠ some 0)
    (h : m.priv.service_start_timeout ≠ 0 → m.priv.pid ≠ 0) :
    (f.call m spawned).1.priv.service_start_timeout ≠ 0 → (f.call m spawned).1.priv.pid ≠ 0 := by
  cases f
  · cases spawned with
    | none =>
      simp only [GSourceFunc.call]
      rw [daemon_exec_failed_eq]
      exact h
    | some pid =>
      intro _
      have hp : pid ≠ 0 := fun h0 => hs (by rw [h0])
      simpa [GSourceFunc.call, nm_vpn_service_daemon_exec, Machine.emit, g_timeout_add,
        g_child_watch_attach, g_source_attach] using hp
  · simp [GSourceFunc.call, timeout_eq]
  · simpa [GSourceFunc.call, destroy_service, unref_service_priv] using h

theorem dispatch_keeps_timer_pid (m : Machine) (id : Nat) (spawned : Option Nat) (m1 : Machine)
    (hd : dispatch m id spawned = some m1) (hs : spawned ≠ some 0)
    (h : m.priv.service_start_timeout ≠ 0 → m.priv.pid ≠ 0) :
    m1.priv.service_start_timeout ≠ 0 → m1.priv.pid ≠ 0 := by
  unfold dispatch at hd
  split at hd
  · simp only [Option.some.injEq] at hd
    rw [← hd]
    split
    · exact call_keeps_timer_pid _ m spawned hs h
    · exact call_keeps_timer_pid _ m spawned hs h
  · simp only [Option.some.injEq] at hd
    rw [← hd]
    split
    · exact call_keeps_timer_pid _ m spawned hs h
    · exact call_keeps_timer_pid _ m spawned hs h
  · simp at hd

theorem step_keeps_timer_pid (m : Machine) (e : Event) (m1 : Machine)
    (hstep : step m e = some m1) (he : e.is_child_exit = false)
    (h : m.priv.service_start_timeout ≠ 0 → m.priv.pid ≠ 0) :
    m1.priv.service_start_timeout ≠ 0 → m1.priv.pid ≠ 0 := by
  unfold step at hstep
  split at hstep
  · simp at hstep
  · cases e with
    | activate c o =>
      simp only [Option.some.injEq] at hstep
      rw [← hstep, activate_timer, activate_pid]
      exact h
    | state_changed c state =>
      simp only [Option.some.injEq] at hstep
      rw [← hstep, state_changed_timer, state_changed_pid]
      exact h
    | name_owner_changed name old new =>
      simp only [Option.some.injEq] at hstep
      rw [← hstep]
      obtain ⟨hp, ht⟩ := name_owner_changed_pid_timer m name old new
      rw [hp]
      rcases ht with ht | ht
      · intro hne; exact absurd ht hne
      · rw [ht]; exact h
    | dispatch id spawned =>
      simp only at hstep
      split at hstep
      · simp at hstep
      · rename_i hs
        exact dispatch_keeps_timer_pid m id spawned m1 hstep hs h
    | child_exited id status => simp [Event.is_child_exit] at he

theorem run_keeps_timer_pid (es : List Event) : ∀ (m m1 : Machine),
    run m es = some m1 → (∀ e ∈ es, e.is_child_exit = false) →
    (m.priv.service_start_timeout ≠ 0 → m.priv.pid ≠ 0) →
    (m1.priv.service_start_timeout ≠ 0 → m1.priv.pid ≠ 0) := by
  induction es with
  | nil =>
    intro m m1 h _ hc
    simp only [run, Option.some.injEq] at h
    rw [← h]; exact hc
  | cons e es ih =>
    intro m m1 h hq hc
    simp only [run] at h
    cases hs : step m e with
    | none => rw [hs] at h; simp at h
    | some m2 =>
      rw [hs] at h
      exact ih m2 m1 h (fun e1 h1 => hq e1 (List.mem_cons_of_mem _ h1))
        (step_keeps_timer_pid m e m2 hs (hq e (List.mem_cons_self _ _)) hc)

/-- C14 (counterexample): on the example service a connection is activated while the bus
name is not owned and the deferred launch spawns pid 100 and starts the startup timer
(handle 3).  The daemon exits (exit code 1) before the timer fires: `vpn_service_watch_cb`
sets the stored pid to 0 and the timer stays pending with its handle 3. -/
theorem timer_pending_without_pid :
    (run example_service [.activate 1 false, .dispatch 1 (some 100)]).map
        (fun m => (m.priv.service_start_timeout, m.priv.pid, m.sources)) =
      some (3, 100, [⟨2, .child_watch 100⟩, ⟨3, .timeout 2000 .nm_vpn_service_timeout⟩]) ∧
    (run example_service
        [.activate 1 false, .dispatch 1 (some 100), .child_exited 2 256]).map
        (fun m => (m.priv.service_start_timeout, m.priv.pid, m.sources)) =
      some (3, 0, [⟨3, .timeout 2000 .nm_vpn_service_timeout⟩]) := by
  decide

theorem step_keeps_timer_pid_after_startup (m : Machine) (e : Event) (m1 : Machine)
    (hstep : step m e = some m1)
    (he : (!e.is_child_exit || m.priv.service_start_timeout == 0) = true)
    (h : m.priv.service_start_timeout ≠ 0 → m.priv.pid ≠ 0) :
    m1.priv.service_start_timeout ≠ 0 → m1.priv.pid ≠ 0 := by
  cases hx : e.is_child_exit with
  | false => exact step_keeps_timer_pid m e m1 hstep hx h
  | true =>
    have ht : m.priv.service_start_timeout = 0 := by simpa [hx] using he
    cases e with
    | child_exited id status =>
      have hs : child_exited m id status = some m1 := by
        unfold step at hstep
        split at hstep
        · simp at hstep
        · exact hstep
      intro hne
      rw [child_exited_timer m id status m1 hs, ht] at hne
      exact absurd rfl hne
    | activate c o => simp [Event.is_child_exit] at hx
    | state_changed c st => simp [Event.is_child_exit] at hx
    | name_owner_changed n o1 o2 => simp [Event.is_child_exit] at hx
    | dispatch id sp => simp [Event.is_child_exit] at hx

theorem run_keeps_timer_pid_after_startup (es : List Event) : ∀ (m m1 : Machine),
    run m es = some m1 → exits_after_startup m es = true →
    (m.priv.service_start_timeout ≠ 0 → m.priv.pid ≠ 0) →
    (m1.priv.service_start_timeout ≠ 0 → m1.priv.pid ≠ 0) := by
  induction es with
  | nil =>
    intro m m1 h _ hc
    simp only [run, Option.some.injEq] at h
    rw [← h]; exact hc
  | cons e es ih =>
    intro m m1 h hq hc
    simp only [run] at h
    cases hs : step m e with
    | none => rw [hs] at h; simp at h
    | some m2 =>
      rw [hs] at h
      simp only [exits_after_startup, hs, Bool.and_eq_true] at hq
      exact ih m2 m1 h hq.2 (step_keeps_timer_pid_after_startup m e m2 hs hq.1 hc)

/-- C14 (amended): start from a freshly created service (handle 0), or from any state in
which the startup-timer handle is 0 or the stored pid is non-zero, and let any activate,
connection state-change, name-owner-changed, main-loop dispatch and process-exit events
follow, provided every process exit is handled while no startup timer is pending (handle
0).  Then in the state reached the handle is 0 or the stored pid is non-zero.  A process
exit sets the pid to 0 and leaves the handle as it is, so one handled while the timer is
pending is what breaks the implication. -/
theorem timer_implies_pid_unless_exit_while_pending (m0 : Machine) (es : List Event)
    (m : Machine)
    (h0 : m0.priv.service_start_timeout = 0 ∨ m0.priv.pid ≠ 0)
    (hrun : run m0 es = some m) (hexits : exits_after_startup m0 es = true)
    (pid : Nat) (status : Int) :
    (m.priv.service_start_timeout = 0 ∨ m.priv.pid ≠ 0) ∧
    (∀ name dbus_service program name_owner_id,
      (service_created name dbus_service program name_owner_id).priv.service_start_timeout
        = 0) ∧
    (vpn_service_watch_cb m pid status).priv.pid = 0 ∧
    (vpn_service_watch_cb m pid status).priv.service_start_timeout =
      m.priv.service_start_timeout := by
  obtain ⟨log, _, heq⟩ := watch_cb_shape m pid status
  refine ⟨?_, fun _ _ _ _ => rfl, ?_, ?_⟩
  · by_cases ht : m.priv.service_start_timeout = 0
    · exact Or.inl ht
    · refine Or.inr (run_keeps_timer_pid_after_startup es m0 m hrun hexits ?_ ht)
      intro hne
      rcases h0 with h0 | h0
      · exact absurd h0 hne
      · exact h0
  · rw [heq]
  · rw [heq]

theorem timer_implies_pid_unless_exit_while_pending_witness :
    (example_service.priv.service_start_timeout = 0 ∨ example_service.priv.pid ≠ 0) ∧
    run example_service restart_run = some restarted_service ∧
    exits_after_startup example_service restart_run = true ∧
    (restart_run.filter Event.is_child_exit).length = 1 ∧
    restarted_service.priv.service_start_timeout = 6 ∧
    (restarted_service.priv.service_start_timeout = 0 ∨ restarted_service.priv.pid ≠ 0) :=
  ⟨by decide, by decide, by decide, by decide, by decide,
    (timer_implies_pid_unless_exit_while_pending example_service restart_run restarted_service
      (by decide) (by decide) (by decide) 101 0).1⟩


/-! ## The service registry -/

theorem find_service_file_loop_eq (name : String) (entries : List DirEntry) :
    find_service_file_loop name entries =
      (entries.find? (fun e => e.found name)).bind (fun e => e.load) := by
  induction entries with
  | nil => rfl
  | cons e rest ih =>
    by_cases h : e.found name = true
    · simp [find_service_file_loop, List.find?_cons, h]
    · simp [find_service_file_loop, List.find?_cons, h, ih]

theorem found_spec (e : DirEntry) (name : String) (h : e.found name = true) :
    ∃ key_file, e.load = some key_file ∧
      key_file.get_string VPN_CONNECTION_GROUP "service" = some name := by
  unfold DirEntry.found at h
  split at h
  · rename_i key_file hl
    split at h
    · rename_i val hv
      refine ⟨key_file, hl, ?_⟩
      rw [hv]
      simpa using h
    · simp at h
  · simp at h

theorem service_new_of_first (entries : List DirEntry) (name : String) (id : Nat)
    (e : DirEntry) (key_file : GKeyFile)
    (hfind : entries.find? (fun e => e.found name) = some e) (hload : e.load = some key_file) :
    nm_vpn_service_new (some entries) name id =
      (key_file.get_string VPN_CONNECTION_GROUP "program").map
        (fun program => service_created name name program id) := by
  have hfound : e.found name = true := by
    have := List.find?_some hfind
    simpa using this
  obtain ⟨kf, hl, hs⟩ := found_spec e name hfound
  rw [hload] at hl
  cases hl
  unfold nm_vpn_service_new find_service_file
  simp only [find_service_file_loop_eq, hfind, Option.some_bind, hload, hs]
  cases key_file.get_string VPN_CONNECTION_GROUP "program" <;> rfl

theorem service_new_of_none (entries : List DirEntry) (name : String) (id : Nat)
    (hfind : entries.find? (fun e => e.found name) = none) :
    nm_vpn_service_new (some entries) name id = none := by
  unfold nm_vpn_service_new find_service_file
  simp [find_service_file_loop_eq, hfind]

/-- C15: for every directory listing (entries in reading order) and every name,
`nm_vpn_service_new` returns NULL exactly when no entry is a loadable key file whose
"service" key in group "VPN Connection" equals the name, or the first such entry in reading
order has no "program" key.  An entry counts (sets `found`) exactly when it loads and its
"service" value is the name.  In particular, with a first matching record that lacks
"program" and a second matching record that has it, the result is NULL. -/
theorem service_new_fails_iff (entries : List DirEntry) (name : String) (id : Nat) :
    (nm_vpn_service_new (some entries) name id = none ↔
      (∀ e ∈ entries, e.found name = false) ∨
      (∃ (e : DirEntry) (key_file : GKeyFile),
        entries.find? (fun e => e.found name) = some e ∧
        e.load = some key_file ∧
        key_file.get_string VPN_CONNECTION_GROUP "program" = none)) ∧
    (∀ e : DirEntry, e.found name = true ↔
      ∃ key_file : GKeyFile, e.load = some key_file ∧
        key_file.get_string VPN_CONNECTION_GROUP "service" = some name) ∧
    nm_vpn_service_new
      (some [⟨"a.name", some (service_record "openvpn" none)⟩,
             ⟨"b.name", some (service_record "openvpn" (some "/usr/libexec/nm-openvpn-service"))⟩])
      "openvpn" 1 = none := by
  refine ⟨?_, ?_, by decide⟩
  · cases hfind : entries.find? (fun e => e.found name) with
    | none =>
      rw [service_new_of_none entries name id hfind]
      simp only [true_iff]
      left
      intro e he
      have := List.find?_eq_none.1 hfind e he
      simpa using this
    | some e =>
      have hfound : e.found name = true := by
        have := List.find?_some hfind
        simpa using this
      obtain ⟨key_file, hl, _⟩ := found_spec e name hfound
      rw [service_new_of_first entries name id e key_file hfind hl]
      constructor
      · intro h
        right
        refine ⟨e, key_file, rfl, hl, ?_⟩
        simpa using h
      · rintro (h | ⟨e1, kf1, h1, h2, h3⟩)
        · have hm : e ∈ entries := List.mem_of_find?_eq_some hfind
          rw [h e hm] at hfound
          simp at hfound
        · cases h1
          rw [hl] at h2
          cases h2
          simp [h3]
  · intro e
    constructor
    · exact found_spec e name
    · rintro ⟨key_file, hl, hs⟩
      simp [DirEntry.found, hl, hs]

/-- C16: when `nm_vpn_service_new` succeeds, the first entry in reading order that is a
loadable key file with "service" equal to the name exists, and the created service has
`name` equal to the argument, `dbus_service` equal to that record's "service" value (hence
equal to the name) and `program` equal to that record's "program" value; its pid and
startup-timer handle are 0, its connection list is empty, no source is pending and it
holds one reference. -/
theorem service_new_fields (entries : List DirEntry) (name : String) (id : Nat) (m : Machine)
    (h : nm_vpn_service_new (some entries) name id = some m) :
    ∃ e key_file, entries.find? (fun e => e.found name) = some e ∧
      e.load = some key_file ∧
      m.priv.name = name ∧
      key_file.get_string VPN_CONNECTION_GROUP "service" = some m.priv.dbus_service ∧
      m.priv.dbus_service = name ∧
      key_file.get_string VPN_CONNECTION_GROUP "program" = some m.priv.program ∧
      m.priv.pid = 0 ∧ m.priv.service_start_timeout = 0 ∧ m.priv.connections = [] ∧
      m.sources = [] ∧ m.ref_count = 1 := by
  cases hfind : entries.find? (fun e => e.found name) with
  | none =>
    rw [service_new_of_none entries name id hfind] at h
    simp at h
  | some e =>
    have hfound : e.found name = true := by
      have := List.find?_some hfind
      simpa using this
    obtain ⟨key_file, hl, hs⟩ := found_spec e name hfound
    rw [service_new_of_first entries name id e key_file hfind hl] at h
    cases hp : key_file.get_string VPN_CONNECTION_GROUP "program" with
    | none => rw [hp] at h; simp at h
    | some program =>
      rw [hp] at h
      simp only [Option.map_some', Option.some.injEq] at h
      subst h
      exact ⟨e, key_file, rfl, hl, rfl, hs, rfl, hp, rfl, rfl, rfl, rfl, rfl⟩


theorem service_new_fields_witness :
    nm_vpn_service_new (some example_directory) "org.example.vpn.openvpn" 1 =
      some (service_created "org.example.vpn.openvpn" "org.example.vpn.openvpn"
        "/usr/libexec/nm-openvpn-service" 1) ∧
    (service_created "org.example.vpn.openvpn" "org.example.vpn.openvpn"
      "/usr/libexec/nm-openvpn-service" 1).priv.dbus_service = "org.example.vpn.openvpn" :=
  ⟨by decide,
    (service_new_fields example_directory "org.example.vpn.openvpn" 1
      (service_created "org.example.vpn.openvpn" "org.example.vpn.openvpn"
        "/usr/libexec/nm-openvpn-service" 1) (by decide)).elim
      fun _ h => h.elim fun _ h2 => h2.2.2.2.2.1⟩


/-! ## The exit cause in the log -/

theorem warnings_map_fail (l : List Conn) :
    (l.map Call.nm_vpn_connection_fail).filter Call.is_warning = [] := by
  induction l with
  | nil => rfl
  | cons c l ih => simp [List.filter_cons, Call.is_warning, ih]

theorem watch_cb_trace (m : Machine) (pid : Nat) (status : Int) :
    (vpn_service_watch_cb m pid status).trace =
      m.trace ++
        ((if WIFEXITED status then
            (if WEXITSTATUS status = 0 then []
             else [Call.nm_warning (.exited_with_error (WSTOPSIG status))])
          else if WIFSTOPPED status then [.nm_warning (.stopped_unexpectedly (WSTOPSIG status))]
          else if WIFSIGNALED status then [.nm_warning (.died_with_signal (WTERMSIG status))]
          else [.nm_warning .died_unknown_cause]) ++
         .waitpid pid :: m.priv.connections.map Call.nm_vpn_connection_fail) := by
  unfold vpn_service_watch_cb
  by_cases h1 : WIFEXITED status = true
  · by_cases h2 : WEXITSTATUS status = 0 <;>
      simp [h1, h2, nm_vpn_service_connections_stop, Machine.emit]
  · by_cases h3 : WIFSTOPPED status = true
    · simp [h1, h3, nm_vpn_service_connections_stop, Machine.emit]
    · by_cases h4 : WIFSIGNALED status = true <;>
        simp [h1, h3, h4, nm_vpn_service_connections_stop, Machine.emit]

/-- C17: for every wait status the warnings logged by `vpn_service_watch_cb` are decided by
one chain of tests, so exactly one cause is chosen: normal exit (no warning for exit code 0,
otherwise one warning whose number is `WEXITSTATUS (status)`), stopped (one warning with
`WSTOPSIG (status)`), signaled (one warning with `WTERMSIG (status)`), or unknown (one
warning without a number).  In the Linux encoding the three tests exclude each other, and
`WSTOPSIG (status)`, which the code passes in the exit branch, is `WEXITSTATUS (status)`;
exit codes are below 256 and signal numbers below 128. -/
theorem exit_cause_reported (m : Machine) (pid : Nat) (status : Int) :
    (calls_since m (vpn_service_watch_cb m pid status)).filter Call.is_warning =
      (if WIFEXITED status then
        (if WEXITSTATUS status = 0 then []
         else [Call.nm_warning (.exited_with_error (WEXITSTATUS status))])
       else if WIFSTOPPED status then [.nm_warning (.stopped_unexpectedly (WSTOPSIG status))]
       else if WIFSIGNALED status then [.nm_warning (.died_with_signal (WTERMSIG status))]
       else [.nm_warning .died_unknown_cause]) ∧
    (WIFEXITED status && WIFSTOPPED status) = false ∧
    (WIFEXITED status && WIFSIGNALED status) = false ∧
    (WIFSTOPPED status && WIFSIGNALED status) = false ∧
    WSTOPSIG status = WEXITSTATUS status ∧
    WEXITSTATUS status < 256 ∧ WTERMSIG status < 128 := by
  refine ⟨?_, ?_, ?_, ?_, rfl, ?_, ?_⟩
  · rw [calls_since_append m _ _ (watch_cb_trace m pid status), List.filter_append,
      List.filter_cons, warnings_map_fail]
    by_cases h1 : WIFEXITED status = true
    · by_cases h2 : WEXITSTATUS status = 0 <;>
        simp [h1, h2, Call.is_warning, WSTOPSIG]
    · by_cases h3 : WIFSTOPPED status = true
      · simp [h1, h3, Call.is_warning]
      · by_cases h4 : WIFSIGNALED status = true <;>
          simp [h1, h3, h4, Call.is_warning]
  · simp only [WIFEXITED, WIFSTOPPED, WTERMSIG, Bool.and_eq_false_imp, beq_iff_eq,
      beq_eq_false_iff_ne, ne_eq]
    omega
  · simp only [WIFEXITED, WIFSIGNALED, WTERMSIG, Bool.and_eq_false_imp, beq_iff_eq,
      decide_eq_false_iff_not]
    omega
  · simp only [WIFSTOPPED, WIFSIGNALED, WTERMSIG, Bool.and_eq_false_imp, beq_iff_eq,
      decide_eq_false_iff_not]
    omega
  · simp only [WEXITSTATUS]; omega
  · simp only [WTERMSIG]; omega

/-! ## Activation while the daemon is starting -/

theorem activate_starting_eq (m : Machine) (c : Conn)
    (ht : m.priv.service_start_timeout ≠ 0) :
    (nm_vpn_service_activate m c false).2 =
      { m with priv := { m.priv with connections := c :: m.priv.connections },
               trace := m.trace ++ [.g_signal_connect_state_changed c] } := by
  simp [nm_vpn_service_activate, Machine.emit, ht]

/-- C18: on a state whose startup timer is pending, with the bus name not owned,
`nm_vpn_service_activate` returns the new connection, puts it at the head of the list, and
its only call is connecting the state-changed handler: no command, no `g_idle_add`, no
source attached, pid and timer handle unchanged.  If the next event is a name-owner-changed
event for the service's bus name from an absent to a present owner, the commands sent are
activate for the new connection and then for every connection attached before, once per
list entry. -/
theorem activate_while_starting (m : Machine) (c : Conn) (old new : Option String)
    (ht : m.priv.service_start_timeout ≠ 0)
    (hold : owner_good old = false) (hnew : owner_good new = true) :
    (nm_vpn_service_activate m c false).1 = c ∧
    (nm_vpn_service_activate m c false).2.priv.connections = c :: m.priv.connections ∧
    calls_since m (nm_vpn_service_activate m c false).2 =
      [.g_signal_connect_state_changed c] ∧
    commands (calls_since m (nm_vpn_service_activate m c false).2) = [] ∧
    (calls_since m (nm_vpn_service_activate m c false).2).filter Call.is_idle_add = [] ∧
    (nm_vpn_service_activate m c false).2.sources = m.sources ∧
    (nm_vpn_service_activate m c false).2.priv.pid = m.priv.pid ∧
    (nm_vpn_service_activate m c false).2.priv.service_start_timeout =
      m.priv.service_start_timeout ∧
    commands (calls_since (nm_vpn_service_activate m c false).2
      (nm_vpn_service_name_owner_changed (nm_vpn_service_activate m c false).2
        (nm_vpn_service_activate m c false).2.priv.dbus_service old new)) =
      (c :: m.priv.connections).map Call.nm_vpn_connection_activate ∧
    (∀ d, (calls_since (nm_vpn_service_activate m c false).2
      (nm_vpn_service_name_owner_changed (nm_vpn_service_activate m c false).2
        (nm_vpn_service_activate m c false).2.priv.dbus_service old new)).count
        (.nm_vpn_connection_activate d) = (c :: m.priv.connections).count d) := by
  have h := activate_starting_eq m c ht
  have hs : calls_since m (nm_vpn_service_activate m c false).2 =
      [.g_signal_connect_state_changed c] :=
    calls_since_append m _ _ (by rw [h])
  have ht2 : (nm_vpn_service_activate m c false).2.priv.service_start_timeout ≠ 0 := by
    rw [h]; exact ht
  have hc : (nm_vpn_service_activate m c false).2.priv.connections = c :: m.priv.connections := by
    rw [h]
  have ha := name_owner_appeared (nm_vpn_service_activate m c false).2 old new ht2 hold hnew
  have hs2 := calls_since_append (nm_vpn_service_activate m c false).2 _ _
    (congrArg Machine.trace ha)
  simp only at hs2
  refine ⟨rfl, hc, hs, ?_, ?_, ?_, ?_, ?_, ?_, ?_⟩
  · rw [hs]; rfl
  · rw [hs]; rfl
  · rw [h]
  · rw [h]
  · rw [h]
  · rw [hs2, hc]
    have := commands_map_activate (c :: m.priv.connections)
    simp only [commands] at this ⊢
    simp only [List.filter_cons, Call.is_command]
    simpa using this
  · intro d
    rw [hs2, hc, List.count_cons, List.count_cons, count_map_activate]
    simp

/-! ## A terminal report from a connection that is not attached -/

theorem state_changed_not_attached (m : Machine) (c : Conn) (state : NMVPNConnectionState)
    (hstate : state = .failed ∨ state = .disconnected) (hc : c ∉ m.priv.connections) :
    connection_state_changed m c state =
      if m.priv.connections = [] then
        { m with sources := m.sources ++ [⟨m.last_source_id + 1, .timeout 10000 .destroy_service⟩],
                 last_source_id := m.last_source_id + 1,
                 trace := m.trace ++ [.g_object_unref_connection c,
                   .g_timeout_add 10000 .destroy_service (m.last_source_id + 1)] }
      else
        { m with trace := m.trace ++ [.g_object_unref_connection c] } := by
  rw [state_changed_terminal_eq m c state hstate, List.erase_of_not_mem hc]
  by_cases he : m.priv.connections = []
  · rw [if_pos he, if_pos he]
    cases m with
    | mk priv rc src last tr =>
      cases priv
      simp only at he
      subst he
      rfl
  · rw [if_neg he, if_neg he]

/-- C19 (evaluation at the failing input): on the example service connection 1 is
activated and reports failed: it is removed, released, and the destroy timer (source 1) is
scheduled.  Connection 1, no longer in the list, then reports disconnected:
`g_object_unref` is called on it again and a second destroy timer (source 2) is scheduled,
for one transition of the list to empty.  After the first timer has released the service
the second is still pending.  With connection 2 still attached, the second report of
connection 1 schedules no timer but still calls `g_object_unref` on it. -/
theorem second_terminal_report :
    (run example_service [.activate 1 true, .state_changed 1 .failed]).map
        (fun m => (m.priv.connections, m.sources, m.trace.drop 2)) =
      some ([], [⟨1, .timeout 10000 .destroy_service⟩],
            [.g_object_unref_connection 1, .g_timeout_add 10000 .destroy_service 1]) ∧
    (run example_service
        [.activate 1 true, .state_changed 1 .failed, .state_changed 1 .disconnected]).map
        (fun m => (m.priv.connections, m.sources, m.trace.drop 4)) =
      some ([], [⟨1, .timeout 10000 .destroy_service⟩, ⟨2, .timeout 10000 .destroy_service⟩],
            [.g_object_unref_connection 1, .g_timeout_add 10000 .destroy_service 2]) ∧
    (run example_service
        [.activate 1 true, .state_changed 1 .failed, .state_changed 1 .disconnected,
         .dispatch 1 none]).map (fun m => (m.ref_count, m.sources)) =
      some (0, [⟨2, .timeout 10000 .destroy_service⟩]) ∧
    (run example_service
        [.activate 1 true, .activate 2 true, .state_changed 1 .failed,
         .state_changed 1 .disconnected]).map
        (fun m => (m.priv.connections, m.sources, m.trace.drop 4)) =
      some ([2], [], [.g_object_unref_connection 1, .g_object_unref_connection 1]) := by
  decide


theorem activate_while_starting_witness :
    (nm_vpn_service_daemon_exec (activate_all example_service [1] false)
      (some 100)).1.priv.service_start_timeout ≠ 0 ∧
    owner_good none = false ∧ owner_good (some "1.23") = true ∧
    commands (calls_since
      (nm_vpn_service_activate
        (nm_vpn_service_daemon_exec (activate_all example_service [1] false) (some 100)).1
        2 false).2
      (nm_vpn_service_name_owner_changed
        (nm_vpn_service_activate
          (nm_vpn_service_daemon_exec (activate_all example_service [1] false) (some 100)).1
          2 false).2
        "org.example.vpn.openvpn" none (some "1.23"))) =
      [.nm_vpn_connection_activate 2, .nm_vpn_connection_activate 1] :=
  ⟨by decide, by decide, by decide,
    (activate_while_starting
      (nm_vpn_service_daemon_exec (activate_all example_service [1] false) (some 100)).1
      2 none (some "1.23") (by decide) (by decide) (by decide)).2.2.2.2.2.2.2.2.1⟩

end NMVPN
